import Mathlib

/-!
Shallow embedding of the sn_messaging message-protocol layer.

Source files embedded: src/lib.rs, src/client/mod.rs, src/client/query.rs,
src/client/messaging.rs, src/node/mod.rs, src/node/node_msg.rs.

Parts of the crate referenced by those files but absent from src/
(serialisation.rs / WireMsg, msg_id.rs / MessageId::new, client/errors.rs,
errors.rs, client/data.rs and the other operation-leaf modules, location.rs)
are modelled from the specification; each such definition carries a doc
comment starting with `Modelled from the spec:`.

External collaborator types (sn_data_types, xor_name, threshold_crypto) are
opaque payloads at this layer per the spec; they are modelled as `Nat`-valued
tokens, which preserves equality and constructibility, the only properties
this layer relies on.
-/

namespace SnMessaging

/-- Address in the 256-bit XorName space (external xor_name crate, opaque
identity value at this layer). -/
abbrev XorName := Nat

/-- Modelled from the spec: sn_data_types::PublicKey, an opaque key token. -/
abbrev PublicKey := Nat

/-- Modelled from the spec: threshold_crypto (bls) public key of a section. -/
abbrev BlsPublicKey := Nat

/-- Modelled from the spec: sn_data_types::Token amount, opaque. -/
abbrev Token := Nat

/-- Modelled from the spec: crate::location::EndUser (location.rs absent from
src/), the external client identity; opaque at this layer. -/
abbrev EndUser := Nat

/-- Modelled from the spec: crate::location::SrcLocation (location.rs absent
from src/); opaque routing origin. -/
abbrev SrcLocation := Nat

/-- MessageId (msg_id.rs absent from src/): a newtype over an XorName value,
used only for causal correlation. -/
structure MessageId where
  val : XorName
deriving DecidableEq, Repr

/-- Rust `String` modelled as its UTF-8 byte sequence: `len()` is the byte
count and `as_bytes()` is the sequence itself. -/
abbrev RString := List Nat

/-- Modelled from the spec: the client-side Error enum (client/errors.rs is
absent from src/). The spec's error taxonomy names invalid-operation,
access-denied and no-such-data; all remaining variants are opaque payloads
carried generically. -/
inductive Error where
  | AccessDenied (key : PublicKey)
  | NoSuchData
  | InvalidOperation
  | Other (code : Nat)
deriving DecidableEq, Repr

/-- Modelled from the spec: the crate-level Error enum (errors.rs is absent
from src/); `FailedToParse` names the expected shape that was not found. -/
inductive CrateError where
  | FailedToParse (what : String)
  | Other (code : Nat)
deriving DecidableEq, Repr

/-- Client-side Result alias (`type Result<T> = std::result::Result<T, Error>`). -/
abbrev Result (α : Type) := Except Error α

/-- Rust BTreeMap modelled as an association list with lookup semantics. -/
abbrev BTreeMap (α β : Type) := List (α × β)

/-- BTreeMap::get. -/
def BTreeMap.get {α β : Type} [BEq α] (m : BTreeMap α β) (k : α) : Option β :=
  m.lookup k

/-- BTreeMap::is_empty. -/
def BTreeMap.is_empty {α β : Type} (m : BTreeMap α β) : Bool :=
  m.isEmpty

/-! ## Group messaging subsystem (src/client/messaging.rs) -/

/-- GroupId from messaging.rs: `pub type GroupId = XorName`. -/
abbrev GroupId := XorName

/-- Modelled from the spec: sn_data_types::CreditAgreementProof, the payment
credential; opaque at this layer. -/
abbrev CreditProof := Nat

/-- AgentType from messaging.rs. -/
inductive AgentType where
  | Producer
  | Consumer
  | Both
  | Either
deriving DecidableEq, Repr

/-- CostScheme from messaging.rs. -/
inductive CostScheme where
  | None
  | Section (amount : Token)
  | Wallet (key : PublicKey) (cost : Token)
deriving DecidableEq, Repr

/-- MsgSettings from messaging.rs. -/
structure MsgSettings where
  msg_type : Nat
  schema : Option RString
  cost_scheme : CostScheme
  sent_to : AgentType
  sent_by : AgentType
deriving DecidableEq, Repr

/-- Modelled from the spec: xor_name::XorName::from_content (external crate),
a deterministic content hash over the concatenated, domain-separated parts.
The concrete mixing function is a stand-in; every claim about it relies only
on it being a deterministic pure function of its input parts. -/
def XorName.fromContent (parts : List (List Nat)) : XorName :=
  parts.foldl
    (fun h part => part.foldl (fun h b => h * 257 + b + 1) (h * 131 + part.length + 1)) 7

/-- Byte sequence of the domain-separation tag string "GroupId". -/
def groupIdTagBytes : List Nat := [71, 114, 111, 117, 112, 73, 100]

/-- GroupConfig from messaging.rs (fields are private in the source; the
accessors below are the public surface). -/
structure GroupConfig where
  id : GroupId
  name : RString
  owner : EndUser
  msgs : BTreeMap Nat MsgSettings
deriving DecidableEq, Repr

/-- GroupConfig::id_from from messaging.rs: fails with InvalidOperation when
`3 > name.len()`, otherwise hashes "GroupId" and the name bytes. -/
def GroupConfig.id_from (name : RString) : Result GroupId :=
  if 3 > name.length then .error .InvalidOperation
  else .ok (XorName.fromContent [groupIdTagBytes, name])

/-- GroupConfig::new from messaging.rs: rejects an empty settings map, then
delegates to id_from (the `?` operator propagates its InvalidOperation). -/
def GroupConfig.new (name : RString) (owner : EndUser) (msgs : BTreeMap Nat MsgSettings) :
    Result GroupConfig :=
  if msgs.is_empty then .error .InvalidOperation
  else
    match GroupConfig.id_from name with
    | .error e => .error e
    | .ok i => .ok ⟨i, name, owner, msgs⟩

/-- GroupConfig::get_settings from messaging.rs: a BTreeMap lookup. -/
def GroupConfig.get_settings (c : GroupConfig) (msg_type : Nat) : Option MsgSettings :=
  c.msgs.get msg_type

/-! ## Opaque payload data types carried by query responses

All of these are sn_data_types values the spec declares out of scope and
moved opaquely; each is modelled as a `Nat` token. -/

/-- Modelled from the spec: sn_data_types::Blob, opaque. -/
abbrev Blob := Nat

/-- Modelled from the spec: sn_data_types::Map, opaque. -/
abbrev Map := Nat

/-- Modelled from the spec: sn_data_types::MapEntries, opaque. -/
abbrev MapEntries := Nat

/-- Modelled from the spec: the BTreeSet of map keys, opaque. -/
abbrev MapKeys := Nat

/-- Modelled from the spec: sn_data_types::MapValues, opaque. -/
abbrev MapValues := Nat

/-- Modelled from the spec: sn_data_types::MapPermissionSet, opaque. -/
abbrev MapPermissionSet := Nat

/-- Modelled from the spec: the BTreeMap of user permissions, opaque. -/
abbrev MapPermissionsMap := Nat

/-- Modelled from the spec: sn_data_types::MapValue, opaque. -/
abbrev MapValue := Nat

/-- Modelled from the spec: sn_data_types::Sequence, opaque. -/
abbrev Sequence := Nat

/-- Modelled from the spec: sn_data_types::SequenceEntries, opaque. -/
abbrev SequenceEntries := Nat

/-- Modelled from the spec: sn_data_types::SequenceEntry, opaque. -/
abbrev SequenceEntry := Nat

/-- Modelled from the spec: sn_data_types::SequencePublicPolicy, opaque. -/
abbrev SequencePublicPolicy := Nat

/-- Modelled from the spec: sn_data_types::SequencePrivatePolicy, opaque. -/
abbrev SequencePrivatePolicy := Nat

/-- Modelled from the spec: sn_data_types::SequencePermissions, opaque. -/
abbrev SequencePermissions := Nat

/-- Modelled from the spec: sn_data_types::register::Register, opaque. -/
abbrev Register := Nat

/-- Modelled from the spec: the BTreeSet of register entries, opaque. -/
abbrev RegisterEntries := Nat

/-- Modelled from the spec: sn_data_types::register::Policy, opaque. -/
abbrev Policy := Nat

/-- Modelled from the spec: sn_data_types::register::Permissions, opaque. -/
abbrev Permissions := Nat

/-- Modelled from the spec: sn_data_types::ActorHistory, opaque. -/
abbrev ActorHistory := Nat

/-! ## QueryResponse (src/client/mod.rs), plus the group-config response

client/mod.rs declares the 24 data/token response variants. messaging.rs
additionally constructs `QueryResponse::GetGroupConfig(..)` (that file is not
wired into the compiled module tree of client/mod.rs, which has no
`mod messaging;` item, so its extra variant appears in no compiled enum); the
embedding includes it so messaging.rs can be embedded as written. -/

/-- QueryResponse from client/mod.rs (24 variants, source order), extended
with GetGroupConfig as constructed by messaging.rs. -/
inductive QueryResponse where
  | GetBlob (res : Result Blob)
  | GetMap (res : Result Map)
  | GetMapShell (res : Result Map)
  | GetMapVersion (res : Result Nat)
  | ListMapEntries (res : Result MapEntries)
  | ListMapKeys (res : Result MapKeys)
  | ListMapValues (res : Result MapValues)
  | ListMapUserPermissions (res : Result MapPermissionSet)
  | ListMapPermissions (res : Result MapPermissionsMap)
  | GetMapValue (res : Result MapValue)
  | GetSequence (res : Result Sequence)
  | GetSequenceRange (res : Result SequenceEntries)
  | GetSequenceLastEntry (res : Result (Nat × SequenceEntry))
  | GetSequencePublicPolicy (res : Result SequencePublicPolicy)
  | GetSequencePrivatePolicy (res : Result SequencePrivatePolicy)
  | GetSequenceUserPermissions (res : Result SequencePermissions)
  | GetRegister (res : Result Register)
  | GetRegisterOwner (res : Result PublicKey)
  | ReadRegister (res : Result RegisterEntries)
  | GetRegisterPolicy (res : Result Policy)
  | GetRegisterUserPermissions (res : Result Permissions)
  | GetBalance (res : Result Token)
  | GetHistory (res : Result ActorHistory)
  | GetStoreCost (res : Result Token)
  | GetGroupConfig (res : Result GroupConfig)

/-- Variant tag of a QueryResponse, used to state which variant a response
is without regard to its payload. -/
inductive QRTag where
  | GetBlob
  | GetMap
  | GetMapShell
  | GetMapVersion
  | ListMapEntries
  | ListMapKeys
  | ListMapValues
  | ListMapUserPermissions
  | ListMapPermissions
  | GetMapValue
  | GetSequence
  | GetSequenceRange
  | GetSequenceLastEntry
  | GetSequencePublicPolicy
  | GetSequencePrivatePolicy
  | GetSequenceUserPermissions
  | GetRegister
  | GetRegisterOwner
  | ReadRegister
  | GetRegisterPolicy
  | GetRegisterUserPermissions
  | GetBalance
  | GetHistory
  | GetStoreCost
  | GetGroupConfig
deriving DecidableEq, Repr

/-- Tag of a QueryResponse value. -/
def QueryResponse.tag : QueryResponse → QRTag
  | .GetBlob _ => .GetBlob
  | .GetMap _ => .GetMap
  | .GetMapShell _ => .GetMapShell
  | .GetMapVersion _ => .GetMapVersion
  | .ListMapEntries _ => .ListMapEntries
  | .ListMapKeys _ => .ListMapKeys
  | .ListMapValues _ => .ListMapValues
  | .ListMapUserPermissions _ => .ListMapUserPermissions
  | .ListMapPermissions _ => .ListMapPermissions
  | .GetMapValue _ => .GetMapValue
  | .GetSequence _ => .GetSequence
  | .GetSequenceRange _ => .GetSequenceRange
  | .GetSequenceLastEntry _ => .GetSequenceLastEntry
  | .GetSequencePublicPolicy _ => .GetSequencePublicPolicy
  | .GetSequencePrivatePolicy _ => .GetSequencePrivatePolicy
  | .GetSequenceUserPermissions _ => .GetSequenceUserPermissions
  | .GetRegister _ => .GetRegister
  | .GetRegisterOwner _ => .GetRegisterOwner
  | .ReadRegister _ => .ReadRegister
  | .GetRegisterPolicy _ => .GetRegisterPolicy
  | .GetRegisterUserPermissions _ => .GetRegisterUserPermissions
  | .GetBalance _ => .GetBalance
  | .GetHistory _ => .GetHistory
  | .GetStoreCost _ => .GetStoreCost
  | .GetGroupConfig _ => .GetGroupConfig

/-- The QueryResponse variant of the given tag wrapping `Err(e)`. -/
def QRTag.mkErr : QRTag → Error → QueryResponse
  | .GetBlob, e => .GetBlob (.error e)
  | .GetMap, e => .GetMap (.error e)
  | .GetMapShell, e => .GetMapShell (.error e)
  | .GetMapVersion, e => .GetMapVersion (.error e)
  | .ListMapEntries, e => .ListMapEntries (.error e)
  | .ListMapKeys, e => .ListMapKeys (.error e)
  | .ListMapValues, e => .ListMapValues (.error e)
  | .ListMapUserPermissions, e => .ListMapUserPermissions (.error e)
  | .ListMapPermissions, e => .ListMapPermissions (.error e)
  | .GetMapValue, e => .GetMapValue (.error e)
  | .GetSequence, e => .GetSequence (.error e)
  | .GetSequenceRange, e => .GetSequenceRange (.error e)
  | .GetSequenceLastEntry, e => .GetSequenceLastEntry (.error e)
  | .GetSequencePublicPolicy, e => .GetSequencePublicPolicy (.error e)
  | .GetSequencePrivatePolicy, e => .GetSequencePrivatePolicy (.error e)
  | .GetSequenceUserPermissions, e => .GetSequenceUserPermissions (.error e)
  | .GetRegister, e => .GetRegister (.error e)
  | .GetRegisterOwner, e => .GetRegisterOwner (.error e)
  | .ReadRegister, e => .ReadRegister (.error e)
  | .GetRegisterPolicy, e => .GetRegisterPolicy (.error e)
  | .GetRegisterUserPermissions, e => .GetRegisterUserPermissions (.error e)
  | .GetBalance, e => .GetBalance (.error e)
  | .GetHistory, e => .GetHistory (.error e)
  | .GetStoreCost, e => .GetStoreCost (.error e)
  | .GetGroupConfig, e => .GetGroupConfig (.error e)

/-! ## Query side (src/client/query.rs and the operation leaves)

client/data.rs and the per-capability read enums (blob.rs, map.rs,
sequence.rs, register.rs) are absent from src/; they are modelled from the
spec: per-capability closed unions whose variants each act on one address,
with a total, bijective-by-construction pairing to QueryResponse variants
realised by their error-mapping functions, and destination resolution
returning the address of the data acted upon. -/

/-- Modelled from the spec: BlobRead (client/blob.rs absent from src/). -/
inductive BlobRead where
  | Get (address : XorName)
deriving DecidableEq, Repr

/-- Modelled from the spec: MapRead (client/map.rs absent from src/); one
variant per Map QueryResponse variant. -/
inductive MapRead where
  | Get (address : XorName)
  | GetShell (address : XorName)
  | GetVersion (address : XorName)
  | ListEntries (address : XorName)
  | ListKeys (address : XorName)
  | ListValues (address : XorName)
  | ListUserPermissions (address : XorName) (user : PublicKey)
  | ListPermissions (address : XorName)
  | GetValue (address : XorName) (key : Nat)
deriving DecidableEq, Repr

/-- Modelled from the spec: SequenceRead (client/sequence.rs absent from
src/); one variant per Sequence QueryResponse variant. -/
inductive SequenceRead where
  | Get (address : XorName)
  | GetRange (address : XorName) (lo : Nat) (hi : Nat)
  | GetLastEntry (address : XorName)
  | GetPublicPolicy (address : XorName)
  | GetPrivatePolicy (address : XorName)
  | GetUserPermissions (address : XorName) (user : PublicKey)
deriving DecidableEq, Repr

/-- Modelled from the spec: RegisterRead (client/register.rs absent from
src/); one variant per Register QueryResponse variant. -/
inductive RegisterRead where
  | Get (address : XorName)
  | GetOwner (address : XorName)
  | Read (address : XorName)
  | GetPolicy (address : XorName)
  | GetUserPermissions (address : XorName) (user : PublicKey)
deriving DecidableEq, Repr

/-- Modelled from the spec: DataQuery (client/data.rs absent from src/), the
closed union of the per-capability read enums. -/
inductive DataQuery where
  | Blob (q : BlobRead)
  | Map (q : MapRead)
  | Sequence (q : SequenceRead)
  | Register (q : RegisterRead)
deriving DecidableEq, Repr

/-- Modelled from the spec: BlobRead error shaping to the paired variant. -/
def BlobRead.error : BlobRead → Error → QueryResponse
  | .Get _, e => .GetBlob (.error e)

/-- Modelled from the spec: MapRead error shaping to the paired variant. -/
def MapRead.error : MapRead → Error → QueryResponse
  | .Get _, e => .GetMap (.error e)
  | .GetShell _, e => .GetMapShell (.error e)
  | .GetVersion _, e => .GetMapVersion (.error e)
  | .ListEntries _, e => .ListMapEntries (.error e)
  | .ListKeys _, e => .ListMapKeys (.error e)
  | .ListValues _, e => .ListMapValues (.error e)
  | .ListUserPermissions _ _, e => .ListMapUserPermissions (.error e)
  | .ListPermissions _, e => .ListMapPermissions (.error e)
  | .GetValue _ _, e => .GetMapValue (.error e)

/-- Modelled from the spec: SequenceRead error shaping to the paired variant. -/
def SequenceRead.error : SequenceRead → Error → QueryResponse
  | .Get _, e => .GetSequence (.error e)
  | .GetRange _ _ _, e => .GetSequenceRange (.error e)
  | .GetLastEntry _, e => .GetSequenceLastEntry (.error e)
  | .GetPublicPolicy _, e => .GetSequencePublicPolicy (.error e)
  | .GetPrivatePolicy _, e => .GetSequencePrivatePolicy (.error e)
  | .GetUserPermissions _ _, e => .GetSequenceUserPermissions (.error e)

/-- Modelled from the spec: RegisterRead error shaping to the paired variant. -/
def RegisterRead.error : RegisterRead → Error → QueryResponse
  | .Get _, e => .GetRegister (.error e)
  | .GetOwner _, e => .GetRegisterOwner (.error e)
  | .Read _, e => .ReadRegister (.error e)
  | .GetPolicy _, e => .GetRegisterPolicy (.error e)
  | .GetUserPermissions _ _, e => .GetRegisterUserPermissions (.error e)

/-- Modelled from the spec: DataQuery::error delegates per capability. -/
def DataQuery.error : DataQuery → Error → QueryResponse
  | .Blob q, e => q.error e
  | .Map q, e => q.error e
  | .Sequence q, e => q.error e
  | .Register q, e => q.error e

/-- Modelled from the spec: destination of a BlobRead. -/
def BlobRead.dst_address : BlobRead → XorName
  | .Get address => address

/-- Modelled from the spec: destination of a MapRead. -/
def MapRead.dst_address : MapRead → XorName
  | .Get address => address
  | .GetShell address => address
  | .GetVersion address => address
  | .ListEntries address => address
  | .ListKeys address => address
  | .ListValues address => address
  | .ListUserPermissions address _ => address
  | .ListPermissions address => address
  | .GetValue address _ => address

/-- Modelled from the spec: destination of a SequenceRead. -/
def SequenceRead.dst_address : SequenceRead → XorName
  | .Get address => address
  | .GetRange address _ _ => address
  | .GetLastEntry address => address
  | .GetPublicPolicy address => address
  | .GetPrivatePolicy address => address
  | .GetUserPermissions address _ => address

/-- Modelled from the spec: destination of a RegisterRead. -/
def RegisterRead.dst_address : RegisterRead → XorName
  | .Get address => address
  | .GetOwner address => address
  | .Read address => address
  | .GetPolicy address => address
  | .GetUserPermissions address _ => address

/-- Modelled from the spec: DataQuery::dst_address delegates per capability. -/
def DataQuery.dst_address : DataQuery → XorName
  | .Blob q => q.dst_address
  | .Map q => q.dst_address
  | .Sequence q => q.dst_address
  | .Register q => q.dst_address

/-- Query from src/client/query.rs. -/
inductive Query where
  | Data (q : DataQuery)
  | GetStoreCost (bytes : Nat) (data_name : XorName)
deriving DecidableEq, Repr

/-- Query::error from src/client/query.rs. -/
def Query.error : Query → Error → QueryResponse
  | .Data q, e => q.error e
  | .GetStoreCost _ _, e => .GetStoreCost (.error e)

/-- Query::dst_address from src/client/query.rs. -/
def Query.dst_address : Query → XorName
  | .Data q => q.dst_address
  | .GetStoreCost _ data_name => data_name

/-- Specification-side pairing: the QueryResponse tag structurally paired
with each query variant, read off the taxonomy (each read variant names the
response that answers it). The claim compares the error-shaping functions of
the source against this pairing. -/
def BlobRead.pairedTag : BlobRead → QRTag
  | .Get _ => .GetBlob

/-- Specification-side pairing for MapRead. -/
def MapRead.pairedTag : MapRead → QRTag
  | .Get _ => .GetMap
  | .GetShell _ => .GetMapShell
  | .GetVersion _ => .GetMapVersion
  | .ListEntries _ => .ListMapEntries
  | .ListKeys _ => .ListMapKeys
  | .ListValues _ => .ListMapValues
  | .ListUserPermissions _ _ => .ListMapUserPermissions
  | .ListPermissions _ => .ListMapPermissions
  | .GetValue _ _ => .GetMapValue

/-- Specification-side pairing for SequenceRead. -/
def SequenceRead.pairedTag : SequenceRead → QRTag
  | .Get _ => .GetSequence
  | .GetRange _ _ _ => .GetSequenceRange
  | .GetLastEntry _ => .GetSequenceLastEntry
  | .GetPublicPolicy _ => .GetSequencePublicPolicy
  | .GetPrivatePolicy _ => .GetSequencePrivatePolicy
  | .GetUserPermissions _ _ => .GetSequenceUserPermissions

/-- Specification-side pairing for RegisterRead. -/
def RegisterRead.pairedTag : RegisterRead → QRTag
  | .Get _ => .GetRegister
  | .GetOwner _ => .GetRegisterOwner
  | .Read _ => .ReadRegister
  | .GetPolicy _ => .GetRegisterPolicy
  | .GetUserPermissions _ _ => .GetRegisterUserPermissions

/-- Specification-side pairing for DataQuery. -/
def DataQuery.pairedTag : DataQuery → QRTag
  | .Blob q => q.pairedTag
  | .Map q => q.pairedTag
  | .Sequence q => q.pairedTag
  | .Register q => q.pairedTag

/-- Specification-side pairing for Query. -/
def Query.pairedTag : Query → QRTag
  | .Data q => q.pairedTag
  | .GetStoreCost _ _ => .GetStoreCost

/-- GPMGroupQuery from src/client/messaging.rs. -/
inductive GPMGroupQuery where
  | GetConfig (g : GroupId)
deriving DecidableEq, Repr

/-- GPMGroupQuery::error from src/client/messaging.rs. -/
def GPMGroupQuery.error : GPMGroupQuery → Error → QueryResponse
  | .GetConfig _, e => .GetGroupConfig (.error e)

/-- GPMGroupQuery::dst_address from src/client/messaging.rs. -/
def GPMGroupQuery.dst_address : GPMGroupQuery → XorName
  | .GetConfig group_id => group_id

/-! ## Typed extraction (src/client/mod.rs try_from! macro) -/

/-- TryFromError from src/client/mod.rs. -/
inductive TryFromError where
  | WrongType
  | Response (e : Error)
deriving DecidableEq, Repr

/-- The `try_from!(Token, GetBalance)` instantiation of the try_from! macro
in src/client/mod.rs: `impl TryFrom<QueryResponse> for Token`. -/
def Token.try_from (response : QueryResponse) : Except TryFromError Token :=
  match response with
  | .GetBalance (.ok data) => .ok data
  | .GetBalance (.error e) => .error (.Response e)
  | _ => .error .WrongType

/-! ## Client message payload types (src/client/mod.rs) -/

/-- Modelled from the spec: Cmd (client/cmd.rs absent from src/), an opaque
write-operation payload moved by this layer. -/
abbrev Cmd := Nat

/-- Modelled from the spec: sn_data_types::TransferValidated, opaque. -/
abbrev TransferValidatedEv := Nat

/-- Modelled from the spec: sn_data_types::TransferAgreementProof, opaque. -/
abbrev TransferAgreementProof := Nat

/-- Event from src/client/mod.rs. -/
inductive Event where
  | TransferValidated (event : TransferValidatedEv)
  | TransferAgreementReached (proof : TransferAgreementProof)
deriving DecidableEq, Repr

/-- TransferError from src/client/mod.rs. -/
inductive TransferError where
  | TransferValidation (e : Error)
  | TransferRegistration (e : Error)
deriving DecidableEq, Repr

/-- CmdError from src/client/mod.rs. -/
inductive CmdError where
  | Data (e : Error)
  | Transfer (e : TransferError)
deriving DecidableEq, Repr

/-! ## Node operation payloads (src/node/node_msg.rs)

client/mod.rs re-exports these names from client/network.rs, which is absent
from src/; src/node/node_msg.rs carries definitions of the same enums and is
the embedding source for them. -/

/-- Modelled from the spec: DataCmd (client/data.rs absent from src/), opaque. -/
abbrev DataCmd := Nat

/-- Modelled from the spec: ClientSigned, the signed-client credential
(absent from src/), opaque. -/
abbrev ClientSigned := Nat

/-- Modelled from the spec: BlobWrite (client/blob.rs absent from src/), opaque. -/
abbrev BlobWrite := Nat

/-- Modelled from the spec: sn_data_types::BlobAddress, opaque. -/
abbrev BlobAddress := Nat

/-- Modelled from the spec: sn_data_types::Signature, opaque. -/
abbrev Signature := Nat

/-- Modelled from the spec: sn_data_types::SectionElders, opaque. -/
abbrev SectionElders := Nat

/-- Modelled from the spec: sn_data_types::NodeAge, opaque. -/
abbrev NodeAge := Nat

/-- Modelled from the spec: DataExchange (client/data_exchange.rs absent
from src/), opaque metadata snapshot. -/
abbrev DataExchange := Nat

/-- NodeSystemCmd from src/node/node_msg.rs. -/
inductive NodeSystemCmd where
  | RegisterWallet (wallet : PublicKey)
  | StorageFull (node_id : PublicKey) («section» : XorName)
  | ReplicateChunk (chunk : Blob)
  | RepublishChunk (chunk : Blob)
  | ReceiveExistingData (node_wallets : BTreeMap XorName (NodeAge × PublicKey))
      (metadata : DataExchange)
deriving DecidableEq, Repr

/-- NodeCmd from src/node/node_msg.rs. -/
inductive NodeCmd where
  | Metadata (cmd : DataCmd) (client_signed : ClientSigned) (origin : EndUser)
  | Chunks (cmd : BlobWrite) (client_signed : ClientSigned) (origin : EndUser)
  | System (cmd : NodeSystemCmd)
deriving DecidableEq, Repr

/-- NodeEvent from src/node/node_msg.rs. -/
inductive NodeEvent where
  | ReplicationCompleted (chunk : BlobAddress) (proof : Signature)
  | ChunkWriteHandled (result : Except CmdError Unit)

/-- NodeSystemQuery from src/node/node_msg.rs. -/
inductive NodeSystemQuery where
  | GetSectionElders
  | GetChunk (address : BlobAddress)
  | GetNodeWalletKey (node : XorName)
deriving DecidableEq, Repr

/-- NodeQuery from src/node/node_msg.rs. -/
inductive NodeQuery where
  | Metadata (query : DataQuery) (client_signed : ClientSigned) (origin : EndUser)
  | Chunks (query : BlobRead) (origin : EndUser)
  | System (query : NodeSystemQuery)
deriving DecidableEq, Repr

/-- NodeSystemQueryResponse from src/node/node_msg.rs. -/
inductive NodeSystemQueryResponse where
  | GetSectionElders (elders : SectionElders)
  | GetChunk (chunk : Blob)
deriving DecidableEq, Repr

/-- NodeDataQueryResponse from src/node/node_msg.rs. -/
inductive NodeDataQueryResponse where
  | GetChunk (result : Result Blob)

/-- NodeQueryResponse from src/node/node_msg.rs. -/
inductive NodeQueryResponse where
  | Data (response : NodeDataQueryResponse)
  | System (response : NodeSystemQueryResponse)

/-- NodeDataError from src/node/node_msg.rs. -/
inductive NodeDataError where
  | ChunkReplication (address : BlobAddress) (error : Error)
deriving DecidableEq, Repr

/-- NodeTransferError from src/node/node_msg.rs. -/
inductive NodeTransferError where
  | TransferPropagation (e : Error)
deriving DecidableEq, Repr

/-- NodeCmdError from src/node/node_msg.rs. -/
inductive NodeCmdError where
  | Data (e : NodeDataError)
  | Transfers (e : NodeTransferError)
deriving DecidableEq, Repr

/-- Modelled from the spec: NodeCmdResult (client/network.rs absent from
src/), the opaque result payload of an applied NodeCmd. -/
abbrev NodeCmdResult := Nat

/-! ## ProcessMsg, ProcessingError and the client Message (src/client/mod.rs) -/

/-- ProcessMsg from src/client/mod.rs (11 variants, source order). -/
inductive ProcessMsg where
  | Cmd (cmd : Cmd) (id : MessageId)
  | Query (query : Query) (id : MessageId)
  | Event (event : Event) (id : MessageId) (correlation_id : MessageId)
  | QueryResponse (response : QueryResponse) (id : MessageId) (correlation_id : MessageId)
  | CmdError (error : CmdError) (id : MessageId) (correlation_id : MessageId)
  | NodeCmd (cmd : NodeCmd) (id : MessageId)
  | NodeCmdResult (result : NodeCmdResult) (id : MessageId)
      (target_section_pk : Option PublicKey)
  | NodeCmdError (error : NodeCmdError) (id : MessageId) (correlation_id : MessageId)
  | NodeEvent (event : NodeEvent) (id : MessageId) (correlation_id : MessageId)
  | NodeQuery (query : NodeQuery) (id : MessageId)
  | NodeQueryResponse (response : NodeQueryResponse) (id : MessageId)
      (correlation_id : MessageId)

/-- ProcessingError from src/client/mod.rs. -/
structure ProcessingError where
  reason : Option Error
  source_message : Option ProcessMsg
  id : MessageId

/-- ProcessingError::id from src/client/mod.rs. -/
def ProcessingError.id_fn (e : ProcessingError) : MessageId :=
  e.id

/-- Client Message from src/client/mod.rs. -/
inductive Message where
  | Process (msg : ProcessMsg)
  | ProcessingError (error : ProcessingError)

/-- ProcessMsg::id from src/client/mod.rs, embedded arm by arm. The source
match lists ten of the eleven variants and omits NodeCmdResult, so it is not
exhaustive; the `none` result marks the variant no source arm covers. -/
def ProcessMsg.id : ProcessMsg → Option MessageId
  | .Cmd _ id => some id
  | .Query _ id => some id
  | .Event _ id _ => some id
  | .QueryResponse _ id _ => some id
  | .CmdError _ id _ => some id
  | .NodeCmd _ id => some id
  | .NodeEvent _ id _ => some id
  | .NodeQuery _ id => some id
  | .NodeCmdError _ id _ => some id
  | .NodeQueryResponse _ id _ => some id
  | .NodeCmdResult _ _ _ => none

/-- Message::id from src/client/mod.rs, embedded arm by arm. The source
match lists Process(Cmd | Query | Event | QueryResponse | CmdError | NodeCmd
| NodeEvent | NodeQuery | NodeCmdError | NodeQueryResponse) and
ProcessingError, omitting Process(NodeCmdResult); the `none` result marks
the value no source arm covers. -/
def Message.id : Message → Option MessageId
  | .Process (.Cmd _ id) => some id
  | .Process (.Query _ id) => some id
  | .Process (.Event _ id _) => some id
  | .Process (.QueryResponse _ id _) => some id
  | .Process (.CmdError _ id _) => some id
  | .Process (.NodeCmd _ id) => some id
  | .Process (.NodeEvent _ id _) => some id
  | .Process (.NodeQuery _ id) => some id
  | .Process (.NodeCmdError _ id _) => some id
  | .Process (.NodeQueryResponse _ id _) => some id
  | .ProcessingError e => some e.id
  | .Process (.NodeCmdResult _ _ _) => none

/-- Message::get_process from src/client/mod.rs. -/
def Message.get_process : Message → Option ProcessMsg
  | .Process msg => some msg
  | .ProcessingError _ => none

/-- Message::get_processing_error from src/client/mod.rs. -/
def Message.get_processing_error : Message → Option SnMessaging.ProcessingError
  | .Process _ => none
  | .ProcessingError error => some error

/-- ProcessMsg::create_processing_error from src/client/mod.rs. Modelled
from the spec for the id: the source calls MessageId::new() (msg_id.rs is
absent from src/), which per the spec generates a fresh identifier per
originating message; the generated value enters here as `freshId`. -/
def ProcessMsg.create_processing_error (m : ProcessMsg) (reason : Option Error)
    (freshId : MessageId) : ProcessingError :=
  { source_message := some m
    id := freshId
    reason := reason }

/-! ## Node-to-node messages (src/node/mod.rs and src/node/node_msg.rs) -/

/-- NodeMessage from src/node/mod.rs: every variant carries the sender belief
`target_section_pk` as its last field. -/
inductive NodeMessage where
  | NodeCmd (cmd : NodeCmd) (id : MessageId) (target_section_pk : Option PublicKey)
  | NodeCmdError (error : NodeCmdError) (id : MessageId) (correlation_id : MessageId)
      (cmd_origin : SrcLocation) (target_section_pk : Option PublicKey)
  | NodeEvent (event : NodeEvent) (id : MessageId) (correlation_id : MessageId)
      (target_section_pk : Option PublicKey)
  | NodeQuery (query : NodeQuery) (id : MessageId) (target_section_pk : Option PublicKey)
  | NodeQueryResponse (response : NodeQueryResponse) (id : MessageId)
      (correlation_id : MessageId) (query_origin : SrcLocation)
      (target_section_pk : Option PublicKey)

/-- NodeMessage::id from src/node/mod.rs (exhaustive over all five variants). -/
def NodeMessage.id : NodeMessage → MessageId
  | .NodeCmd _ id _ => id
  | .NodeEvent _ id _ _ => id
  | .NodeQuery _ id _ => id
  | .NodeCmdError _ id _ _ _ => id
  | .NodeQueryResponse _ id _ _ _ => id

/-- Total projection of the target_section_pk field of a NodeMessage: every
variant carries it, so the projection is defined by an exhaustive match. -/
def NodeMessage.target_section_pk : NodeMessage → Option PublicKey
  | .NodeCmd _ _ pk => pk
  | .NodeCmdError _ _ _ _ pk => pk
  | .NodeEvent _ _ _ pk => pk
  | .NodeQuery _ _ pk => pk
  | .NodeQueryResponse _ _ _ _ pk => pk

/-- Field update writing the target_section_pk of a NodeMessage while leaving
every other field unchanged; possible exactly because every variant declares
the field. -/
def NodeMessage.with_target_section_pk : NodeMessage → Option PublicKey → NodeMessage
  | .NodeCmd c id _, pk => .NodeCmd c id pk
  | .NodeCmdError e id ci o _, pk => .NodeCmdError e id ci o pk
  | .NodeEvent e id ci _, pk => .NodeEvent e id ci pk
  | .NodeQuery q id _, pk => .NodeQuery q id pk
  | .NodeQueryResponse r id ci o _, pk => .NodeQueryResponse r id ci o pk

/-- NodeMsg from src/node/node_msg.rs (six variants, source order): the
parallel node-message hierarchy; none of its variants declares a
target_section_pk field. -/
inductive NodeMsg where
  | NodeCmd (cmd : NodeCmd) (id : MessageId)
  | NodeCmdError (error : NodeCmdError) (id : MessageId) (correlation_id : MessageId)
  | NodeEvent (event : NodeEvent) (id : MessageId) (correlation_id : MessageId)
  | NodeQuery (query : NodeQuery) (id : MessageId)
  | NodeQueryResponse (response : NodeQueryResponse) (id : MessageId)
      (correlation_id : MessageId)
  | NodeMsgError (error : Error) (id : MessageId) (correlation_id : MessageId)

/-- NodeMsg::id from src/node/node_msg.rs (exhaustive over all six variants). -/
def NodeMsg.id : NodeMsg → MessageId
  | .NodeCmd _ id => id
  | .NodeQuery _ id => id
  | .NodeEvent _ id _ => id
  | .NodeQueryResponse _ id _ => id
  | .NodeCmdError _ id _ => id
  | .NodeMsgError _ id _ => id

/-- Pointwise equality of every field NodeMsg declares: two values are
related exactly when they are the same variant with equal declared fields.
Because NodeMsg declares no target_section_pk, this relation constrains all
of a value's content. -/
def NodeMsg.fieldsEq : NodeMsg → NodeMsg → Prop
  | .NodeCmd c1 i1, .NodeCmd c2 i2 => c1 = c2 ∧ i1 = i2
  | .NodeCmdError e1 i1 ci1, .NodeCmdError e2 i2 ci2 => e1 = e2 ∧ i1 = i2 ∧ ci1 = ci2
  | .NodeEvent e1 i1 ci1, .NodeEvent e2 i2 ci2 => e1 = e2 ∧ i1 = i2 ∧ ci1 = ci2
  | .NodeQuery q1 i1, .NodeQuery q2 i2 => q1 = q2 ∧ i1 = i2
  | .NodeQueryResponse r1 i1 ci1, .NodeQueryResponse r2 i2 ci2 =>
      r1 = r2 ∧ i1 = i2 ∧ ci1 = ci2
  | .NodeMsgError e1 i1 ci1, .NodeMsgError e2 i2 ci2 => e1 = e2 ∧ i1 = i2 ∧ ci1 = ci2
  | _, _ => False

/-- Two NodeMsg values agreeing on every declared field are equal: a NodeMsg
holds no information beyond its declared fields. -/
theorem NodeMsg.fieldsEq_eq : ∀ m₁ m₂ : NodeMsg, NodeMsg.fieldsEq m₁ m₂ → m₁ = m₂ := by
  intro m₁ m₂ h
  cases m₁ <;> cases m₂ <;> simp_all [NodeMsg.fieldsEq]

/-! ## Wire envelope (serialisation.rs is absent from src/)

Modelled from the spec: the wire envelope "encodes/decodes a top-level
message-type union (Ping | InfrastructureQuery | ClientMessage | NodeMessage
| RoutingMessage) to/from bytes, carrying destination and section-key
metadata alongside the logical payload", and deserialisation fails with a
parse error when the discriminant or payload shape is not recognised.

Bytes are modelled as `List Nat`. Every encoder below emits a leading
variant discriminant followed by the encoded fields; every decoder consumes
exactly that shape and returns the remaining bytes, so the envelope is a
genuine byte-level codec rather than an abstract inverse pair. -/

/-- Decoder-combinator result: the decoded value and the unconsumed bytes. -/
abbrev DecRes (α : Type) := Option (α × List Nat)

/-- Encode one opaque numeric token. -/
def encNat (n : Nat) : List Nat := [n]

/-- Decode one opaque numeric token. -/
def decNat : List Nat → DecRes Nat
  | n :: rest => some (n, rest)
  | [] => none

theorem decNat_enc (n : Nat) (rest : List Nat) : decNat (encNat n ++ rest) = some (n, rest) := rfl

/-- Encode a MessageId. -/
def encMsgId (i : MessageId) : List Nat := [i.val]

/-- Decode a MessageId. -/
def decMsgId : List Nat → DecRes MessageId
  | n :: rest => some (⟨n⟩, rest)
  | [] => none

theorem decMsgId_enc (i : MessageId) (rest : List Nat) :
    decMsgId (encMsgId i ++ rest) = some (i, rest) := rfl

/-- Encode a pair of numeric tokens. -/
def encNat2 (p : Nat × Nat) : List Nat := [p.1, p.2]

/-- Decode a pair of numeric tokens. -/
def decNat2 : List Nat → DecRes (Nat × Nat)
  | a :: b :: rest => some ((a, b), rest)
  | _ => none

theorem decNat2_enc (p : Nat × Nat) (rest : List Nat) :
    decNat2 (encNat2 p ++ rest) = some (p, rest) := rfl

/-- Encode an optional value given a payload encoder. -/
def encOpt {α : Type} (encA : α → List Nat) : Option α → List Nat
  | none => [0]
  | some a => 1 :: encA a

/-- Decode an optional value given a payload decoder. -/
def decOpt {α : Type} (decA : List Nat → DecRes α) : List Nat → DecRes (Option α)
  | 0 :: rest => some (none, rest)
  | 1 :: rest =>
      match decA rest with
      | some (a, r) => some (some a, r)
      | none => none
  | _ => none

theorem decOpt_enc {α : Type} (encA : α → List Nat) (decA : List Nat → DecRes α)
    (h : ∀ a rest, decA (encA a ++ rest) = some (a, rest)) :
    ∀ x rest, decOpt decA (encOpt encA x ++ rest) = some (x, rest) := by
  intro x rest
  cases x <;> simp [encOpt, decOpt, h]

/-- Encode a pair given encoders of the components. -/
def encPair {α β : Type} (encA : α → List Nat) (encB : β → List Nat) (p : α × β) : List Nat :=
  encA p.1 ++ encB p.2

/-- Decode a pair given decoders of the components. -/
def decPair {α β : Type} (decA : List Nat → DecRes α) (decB : List Nat → DecRes β)
    (l : List Nat) : DecRes (α × β) :=
  match decA l with
  | some (a, r1) =>
      match decB r1 with
      | some (b, r2) => some ((a, b), r2)
      | none => none
  | none => none

theorem decPair_enc {α β : Type} (encA : α → List Nat) (decA : List Nat → DecRes α)
    (encB : β → List Nat) (decB : List Nat → DecRes β)
    (hA : ∀ a rest, decA (encA a ++ rest) = some (a, rest))
    (hB : ∀ b rest, decB (encB b ++ rest) = some (b, rest)) :
    ∀ p rest, decPair decA decB (encPair encA encB p ++ rest) = some (p, rest) := by
  intro p rest
  simp [encPair, decPair, hA, hB]

/-- Encode a list, length-prefixed, given a payload encoder. -/
def encListBody {α : Type} (encA : α → List Nat) : List α → List Nat
  | [] => []
  | a :: as => encA a ++ encListBody encA as

/-- Encode a list with its length first. -/
def encListOf {α : Type} (encA : α → List Nat) (xs : List α) : List Nat :=
  xs.length :: encListBody encA xs

/-- Decode a known number of payloads. -/
def decListBody {α : Type} (decA : List Nat → DecRes α) : Nat → List Nat → DecRes (List α)
  | 0, l => some ([], l)
  | n + 1, l =>
      match decA l with
      | some (a, r1) =>
          match decListBody decA n r1 with
          | some (as, r2) => some (a :: as, r2)
          | none => none
      | none => none

/-- Decode a length-prefixed list. -/
def decListOf {α : Type} (decA : List Nat → DecRes α) : List Nat → DecRes (List α)
  | n :: rest => decListBody decA n rest
  | [] => none

theorem decListBody_enc {α : Type} (encA : α → List Nat) (decA : List Nat → DecRes α)
    (h : ∀ a rest, decA (encA a ++ rest) = some (a, rest)) :
    ∀ xs rest, decListBody decA xs.length (encListBody encA xs ++ rest) = some (xs, rest) := by
  intro xs
  induction xs with
  | nil => intro rest; simp [encListBody, decListBody]
  | cons a as ih => intro rest; simp [encListBody, decListBody, h, ih]

theorem decListOf_enc {α : Type} (encA : α → List Nat) (decA : List Nat → DecRes α)
    (h : ∀ a rest, decA (encA a ++ rest) = some (a, rest)) :
    ∀ xs rest, decListOf decA (encListOf encA xs ++ rest) = some (xs, rest) := by
  intro xs rest
  simp [encListOf, decListOf, decListBody_enc encA decA h]

/-- Encode a client Error. -/
def encError : Error → List Nat
  | .AccessDenied k => 0 :: encNat k
  | .NoSuchData => [1]
  | .InvalidOperation => [2]
  | .Other c => 3 :: encNat c

/-- Decode a client Error. -/
def decError : List Nat → DecRes Error
  | 0 :: k :: rest => some (.AccessDenied k, rest)
  | 1 :: rest => some (.NoSuchData, rest)
  | 2 :: rest => some (.InvalidOperation, rest)
  | 3 :: c :: rest => some (.Other c, rest)
  | _ => none

theorem decError_enc (e : Error) (rest : List Nat) :
    decError (encError e ++ rest) = some (e, rest) := by
  cases e <;> rfl

/-- Encode an Except value given encoders of both sides. -/
def encExcept {ε α : Type} (encE : ε → List Nat) (encA : α → List Nat) :
    Except ε α → List Nat
  | .ok a => 0 :: encA a
  | .error e => 1 :: encE e

/-- Decode an Except value given decoders of both sides. -/
def decExcept {ε α : Type} (decE : List Nat → DecRes ε) (decA : List Nat → DecRes α) :
    List Nat → DecRes (Except ε α)
  | 0 :: rest =>
      match decA rest with
      | some (a, r) => some (.ok a, r)
      | none => none
  | 1 :: rest =>
      match decE rest with
      | some (e, r) => some (.error e, r)
      | none => none
  | _ => none

theorem decExcept_enc {ε α : Type} (encE : ε → List Nat) (decE : List Nat → DecRes ε)
    (encA : α → List Nat) (decA : List Nat → DecRes α)
    (hE : ∀ e rest, decE (encE e ++ rest) = some (e, rest))
    (hA : ∀ a rest, decA (encA a ++ rest) = some (a, rest)) :
    ∀ x rest, decExcept decE decA (encExcept encE encA x ++ rest) = some (x, rest) := by
  intro x rest
  cases x <;> simp [encExcept, decExcept, hE, hA]

/-- Encode an AgentType. -/
def encAgentType : AgentType → List Nat
  | .Producer => [0]
  | .Consumer => [1]
  | .Both => [2]
  | .Either => [3]

/-- Decode an AgentType. -/
def decAgentType : List Nat → DecRes AgentType
  | 0 :: rest => some (.Producer, rest)
  | 1 :: rest => some (.Consumer, rest)
  | 2 :: rest => some (.Both, rest)
  | 3 :: rest => some (.Either, rest)
  | _ => none

theorem decAgentType_enc (a : AgentType) (rest : List Nat) :
    decAgentType (encAgentType a ++ rest) = some (a, rest) := by
  cases a <;> rfl

/-- Encode a CostScheme. -/
def encCostScheme : CostScheme → List Nat
  | .None => [0]
  | .Section amount => 1 :: encNat amount
  | .Wallet key cost => 2 :: encNat key ++ encNat cost

/-- Decode a CostScheme. -/
def decCostScheme : List Nat → DecRes CostScheme
  | 0 :: rest => some (.None, rest)
  | 1 :: a :: rest => some (.Section a, rest)
  | 2 :: k :: c :: rest => some (.Wallet k c, rest)
  | _ => none

theorem decCostScheme_enc (c : CostScheme) (rest : List Nat) :
    decCostScheme (encCostScheme c ++ rest) = some (c, rest) := by
  cases c <;> rfl

/-- Encode MsgSettings field by field. -/
def encMsgSettings (s : MsgSettings) : List Nat :=
  encNat s.msg_type ++ encOpt (encListOf encNat) s.schema ++ encCostScheme s.cost_scheme ++
    encAgentType s.sent_to ++ encAgentType s.sent_by

/-- Decode MsgSettings field by field. -/
def decMsgSettings (l : List Nat) : DecRes MsgSettings :=
  match decNat l with
  | some (t, r1) =>
      match decOpt (decListOf decNat) r1 with
      | some (sch, r2) =>
          match decCostScheme r2 with
          | some (cs, r3) =>
              match decAgentType r3 with
              | some (st, r4) =>
                  match decAgentType r4 with
                  | some (sb, r5) => some (⟨t, sch, cs, st, sb⟩, r5)
                  | none => none
              | none => none
          | none => none
      | none => none
  | none => none

theorem decMsgSettings_enc (s : MsgSettings) (rest : List Nat) :
    decMsgSettings (encMsgSettings s ++ rest) = some (s, rest) := by
  simp [encMsgSettings, decMsgSettings, decNat_enc, decCostScheme_enc, decAgentType_enc,
    decOpt_enc (encListOf encNat) (decListOf decNat) (decListOf_enc encNat decNat decNat_enc)]

/-- Encode a GroupConfig field by field. -/
def encGroupConfig (c : GroupConfig) : List Nat :=
  encNat c.id ++ encListOf encNat c.name ++ encNat c.owner ++
    encListOf (encPair encNat encMsgSettings) c.msgs

/-- Decode a GroupConfig field by field. -/
def decGroupConfig (l : List Nat) : DecRes GroupConfig :=
  match decNat l with
  | some (i, r1) =>
      match decListOf decNat r1 with
      | some (nm, r2) =>
          match decNat r2 with
          | some (ow, r3) =>
              match decListOf (decPair decNat decMsgSettings) r3 with
              | some (ms, r4) => some (⟨i, nm, ow, ms⟩, r4)
              | none => none
          | none => none
      | none => none
  | none => none

theorem decGroupConfig_enc (c : GroupConfig) (rest : List Nat) :
    decGroupConfig (encGroupConfig c ++ rest) = some (c, rest) := by
  simp [encGroupConfig, decGroupConfig, decNat_enc,
    decListOf_enc encNat decNat decNat_enc,
    decListOf_enc (encPair encNat encMsgSettings) (decPair decNat decMsgSettings)
      (decPair_enc encNat decNat encMsgSettings decMsgSettings decNat_enc decMsgSettings_enc)]

/-- Encode a BlobRead. -/
def encBlobRead : BlobRead → List Nat
  | .Get address => 0 :: encNat address

/-- Decode a BlobRead. -/
def decBlobRead : List Nat → DecRes BlobRead
  | 0 :: a :: rest => some (.Get a, rest)
  | _ => none

theorem decBlobRead_enc (q : BlobRead) (rest : List Nat) :
    decBlobRead (encBlobRead q ++ rest) = some (q, rest) := by
  cases q
  rfl

/-- Encode a MapRead. -/
def encMapRead : MapRead → List Nat
  | .Get a => 0 :: encNat a
  | .GetShell a => 1 :: encNat a
  | .GetVersion a => 2 :: encNat a
  | .ListEntries a => 3 :: encNat a
  | .ListKeys a => 4 :: encNat a
  | .ListValues a => 5 :: encNat a
  | .ListUserPermissions a u => 6 :: encNat a ++ encNat u
  | .ListPermissions a => 7 :: encNat a
  | .GetValue a k => 8 :: encNat a ++ encNat k

/-- Decode a MapRead. -/
def decMapRead : List Nat → DecRes MapRead
  | 0 :: a :: rest => some (.Get a, rest)
  | 1 :: a :: rest => some (.GetShell a, rest)
  | 2 :: a :: rest => some (.GetVersion a, rest)
  | 3 :: a :: rest => some (.ListEntries a, rest)
  | 4 :: a :: rest => some (.ListKeys a, rest)
  | 5 :: a :: rest => some (.ListValues a, rest)
  | 6 :: a :: u :: rest => some (.ListUserPermissions a u, rest)
  | 7 :: a :: rest => some (.ListPermissions a, rest)
  | 8 :: a :: k :: rest => some (.GetValue a k, rest)
  | _ => none

theorem decMapRead_enc (q : MapRead) (rest : List Nat) :
    decMapRead (encMapRead q ++ rest) = some (q, rest) := by
  cases q <;> rfl

/-- Encode a SequenceRead. -/
def encSequenceRead : SequenceRead → List Nat
  | .Get a => 0 :: encNat a
  | .GetRange a lo hi => 1 :: encNat a ++ encNat lo ++ encNat hi
  | .GetLastEntry a => 2 :: encNat a
  | .GetPublicPolicy a => 3 :: encNat a
  | .GetPrivatePolicy a => 4 :: encNat a
  | .GetUserPermissions a u => 5 :: encNat a ++ encNat u

/-- Decode a SequenceRead. -/
def decSequenceRead : List Nat → DecRes SequenceRead
  | 0 :: a :: rest => some (.Get a, rest)
  | 1 :: a :: lo :: hi :: rest => some (.GetRange a lo hi, rest)
  | 2 :: a :: rest => some (.GetLastEntry a, rest)
  | 3 :: a :: rest => some (.GetPublicPolicy a, rest)
  | 4 :: a :: rest => some (.GetPrivatePolicy a, rest)
  | 5 :: a :: u :: rest => some (.GetUserPermissions a u, rest)
  | _ => none

theorem decSequenceRead_enc (q : SequenceRead) (rest : List Nat) :
    decSequenceRead (encSequenceRead q ++ rest) = some (q, rest) := by
  cases q <;> rfl

/-- Encode a RegisterRead. -/
def encRegisterRead : RegisterRead → List Nat
  | .Get a => 0 :: encNat a
  | .GetOwner a => 1 :: encNat a
  | .Read a => 2 :: encNat a
  | .GetPolicy a => 3 :: encNat a
  | .GetUserPermissions a u => 4 :: encNat a ++ encNat u

/-- Decode a RegisterRead. -/
def decRegisterRead : List Nat → DecRes RegisterRead
  | 0 :: a :: rest => some (.Get a, rest)
  | 1 :: a :: rest => some (.GetOwner a, rest)
  | 2 :: a :: rest => some (.Read a, rest)
  | 3 :: a :: rest => some (.GetPolicy a, rest)
  | 4 :: a :: u :: rest => some (.GetUserPermissions a u, rest)
  | _ => none

theorem decRegisterRead_enc (q : RegisterRead) (rest : List Nat) :
    decRegisterRead (encRegisterRead q ++ rest) = some (q, rest) := by
  cases q <;> rfl

/-- Encode a DataQuery. -/
def encDataQuery : DataQuery → List Nat
  | .Blob q => 0 :: encBlobRead q
  | .Map q => 1 :: encMapRead q
  | .Sequence q => 2 :: encSequenceRead q
  | .Register q => 3 :: encRegisterRead q

/-- Decode a DataQuery. -/
def decDataQuery : List Nat → DecRes DataQuery
  | 0 :: rest =>
      match decBlobRead rest with
      | some (q, r) => some (.Blob q, r)
      | none => none
  | 1 :: rest =>
      match decMapRead rest with
      | some (q, r) => some (.Map q, r)
      | none => none
  | 2 :: rest =>
      match decSequenceRead rest with
      | some (q, r) => some (.Sequence q, r)
      | none => none
  | 3 :: rest =>
      match decRegisterRead rest with
      | some (q, r) => some (.Register q, r)
      | none => none
  | _ => none

theorem decDataQuery_enc (q : DataQuery) (rest : List Nat) :
    decDataQuery (encDataQuery q ++ rest) = some (q, rest) := by
  cases q <;> simp [encDataQuery, decDataQuery, decBlobRead_enc, decMapRead_enc,
    decSequenceRead_enc, decRegisterRead_enc]

/-- Encode a Query. -/
def encQuery : Query → List Nat
  | .Data q => 0 :: encDataQuery q
  | .GetStoreCost bytes data_name => 1 :: encNat bytes ++ encNat data_name

/-- Decode a Query. -/
def decQuery : List Nat → DecRes Query
  | 0 :: rest =>
      match decDataQuery rest with
      | some (q, r) => some (.Data q, r)
      | none => none
  | 1 :: b :: n :: rest => some (.GetStoreCost b n, rest)
  | _ => none

theorem decQuery_enc (q : Query) (rest : List Nat) :
    decQuery (encQuery q ++ rest) = some (q, rest) := by
  cases q <;> simp [encQuery, decQuery, decDataQuery_enc, encNat]

/-- Encode a QueryResponse: variant discriminant, then the payload result. -/
def encQueryResponse : QueryResponse → List Nat
  | .GetBlob r => 0 :: encExcept encError encNat r
  | .GetMap r => 1 :: encExcept encError encNat r
  | .GetMapShell r => 2 :: encExcept encError encNat r
  | .GetMapVersion r => 3 :: encExcept encError encNat r
  | .ListMapEntries r => 4 :: encExcept encError encNat r
  | .ListMapKeys r => 5 :: encExcept encError encNat r
  | .ListMapValues r => 6 :: encExcept encError encNat r
  | .ListMapUserPermissions r => 7 :: encExcept encError encNat r
  | .ListMapPermissions r => 8 :: encExcept encError encNat r
  | .GetMapValue r => 9 :: encExcept encError encNat r
  | .GetSequence r => 10 :: encExcept encError encNat r
  | .GetSequenceRange r => 11 :: encExcept encError encNat r
  | .GetSequenceLastEntry r => 12 :: encExcept encError encNat2 r
  | .GetSequencePublicPolicy r => 13 :: encExcept encError encNat r
  | .GetSequencePrivatePolicy r => 14 :: encExcept encError encNat r
  | .GetSequenceUserPermissions r => 15 :: encExcept encError encNat r
  | .GetRegister r => 16 :: encExcept encError encNat r
  | .GetRegisterOwner r => 17 :: encExcept encError encNat r
  | .ReadRegister r => 18 :: encExcept encError encNat r
  | .GetRegisterPolicy r => 19 :: encExcept encError encNat r
  | .GetRegisterUserPermissions r => 20 :: encExcept encError encNat r
  | .GetBalance r => 21 :: encExcept encError encNat r
  | .GetHistory r => 22 :: encExcept encError encNat r
  | .GetStoreCost r => 23 :: encExcept encError encNat r
  | .GetGroupConfig r => 24 :: encExcept encError encGroupConfig r

/-- Decode a QueryResponse. -/
def decQueryResponse : List Nat → DecRes QueryResponse
  | 0 :: rest =>
      match decExcept decError decNat rest with
      | some (r, l) => some (.GetBlob r, l)
      | none => none
  | 1 :: rest =>
      match decExcept decError decNat rest with
      | some (r, l) => some (.GetMap r, l)
      | none => none
  | 2 :: rest =>
      match decExcept decError decNat rest with
      | some (r, l) => some (.GetMapShell r, l)
      | none => none
  | 3 :: rest =>
      match decExcept decError decNat rest with
      | some (r, l) => some (.GetMapVersion r, l)
      | none => none
  | 4 :: rest =>
      match decExcept decError decNat rest with
      | some (r, l) => some (.ListMapEntries r, l)
      | none => none
  | 5 :: rest =>
      match decExcept decError decNat rest with
      | some (r, l) => some (.ListMapKeys r, l)
      | none => none
  | 6 :: rest =>
      match decExcept decError decNat rest with
      | some (r, l) => some (.ListMapValues r, l)
      | none => none
  | 7 :: rest =>
      match decExcept decError decNat rest with
      | some (r, l) => some (.ListMapUserPermissions r, l)
      | none => none
  | 8 :: rest =>
      match decExcept decError decNat rest with
      | some (r, l) => some (.ListMapPermissions r, l)
      | none => none
  | 9 :: rest =>
      match decExcept decError decNat rest with
      | some (r, l) => some (.GetMapValue r, l)
      | none => none
  | 10 :: rest =>
      match decExcept decError decNat rest with
      | some (r, l) => some (.GetSequence r, l)
      | none => none
  | 11 :: rest =>
      match decExcept decError decNat rest with
      | some (r, l) => some (.GetSequenceRange r, l)
      | none => none
  | 12 :: rest =>
      match decExcept decError decNat2 rest with
      | some (r, l) => some (.GetSequenceLastEntry r, l)
      | none => none
  | 13 :: rest =>
      match decExcept decError decNat rest with
      | some (r, l) => some (.GetSequencePublicPolicy r, l)
      | none => none
  | 14 :: rest =>
      match decExcept decError decNat rest with
      | some (r, l) => some (.GetSequencePrivatePolicy r, l)
      | none => none
  | 15 :: rest =>
      match decExcept decError decNat rest with
      | some (r, l) => some (.GetSequenceUserPermissions r, l)
      | none => none
  | 16 :: rest =>
      match decExcept decError decNat rest with
      | some (r, l) => some (.GetRegister r, l)
      | none => none
  | 17 :: rest =>
      match decExcept decError decNat rest with
      | some (r, l) => some (.GetRegisterOwner r, l)
      | none => none
  | 18 :: rest =>
      match decExcept decError decNat rest with
      | some (r, l) => some (.ReadRegister r, l)
      | none => none
  | 19 :: rest =>
      match decExcept decError decNat rest with
      | some (r, l) => some (.GetRegisterPolicy r, l)
      | none => none
  | 20 :: rest =>
      match decExcept decError decNat rest with
      | some (r, l) => some (.GetRegisterUserPermissions r, l)
      | none => none
  | 21 :: rest =>
      match decExcept decError decNat rest with
      | some (r, l) => some (.GetBalance r, l)
      | none => none
  | 22 :: rest =>
      match decExcept decError decNat rest with
      | some (r, l) => some (.GetHistory r, l)
      | none => none
  | 23 :: rest =>
      match decExcept decError decNat rest with
      | some (r, l) => some (.GetStoreCost r, l)
      | none => none
  | 24 :: rest =>
      match decExcept decError decGroupConfig rest with
      | some (r, l) => some (.GetGroupConfig r, l)
      | none => none
  | _ => none

set_option maxHeartbeats 2000000 in
theorem decQueryResponse_enc (r : QueryResponse) (rest : List Nat) :
    decQueryResponse (encQueryResponse r ++ rest) = some (r, rest) := by
  cases r <;> simp [encQueryResponse, decQueryResponse,
    decExcept_enc encError decError encNat decNat decError_enc decNat_enc,
    decExcept_enc encError decError encNat2 decNat2 decError_enc decNat2_enc,
    decExcept_enc encError decError encGroupConfig decGroupConfig decError_enc
      decGroupConfig_enc]

/-- Encode an Event. -/
def encEvent : Event → List Nat
  | .TransferValidated e => 0 :: encNat e
  | .TransferAgreementReached p => 1 :: encNat p

/-- Decode an Event. -/
def decEvent : List Nat → DecRes Event
  | 0 :: e :: rest => some (.TransferValidated e, rest)
  | 1 :: p :: rest => some (.TransferAgreementReached p, rest)
  | _ => none

theorem decEvent_enc (e : Event) (rest : List Nat) :
    decEvent (encEvent e ++ rest) = some (e, rest) := by
  cases e <;> rfl

/-- Encode a TransferError. -/
def encTransferError : TransferError → List Nat
  | .TransferValidation e => 0 :: encError e
  | .TransferRegistration e => 1 :: encError e

/-- Decode a TransferError. -/
def decTransferError : List Nat → DecRes TransferError
  | 0 :: rest =>
      match decError rest with
      | some (e, r) => some (.TransferValidation e, r)
      | none => none
  | 1 :: rest =>
      match decError rest with
      | some (e, r) => some (.TransferRegistration e, r)
      | none => none
  | _ => none

theorem decTransferError_enc (e : TransferError) (rest : List Nat) :
    decTransferError (encTransferError e ++ rest) = some (e, rest) := by
  cases e <;> simp [encTransferError, decTransferError, decError_enc]

/-- Encode a CmdError. -/
def encCmdError : CmdError → List Nat
  | .Data e => 0 :: encError e
  | .Transfer e => 1 :: encTransferError e

/-- Decode a CmdError. -/
def decCmdError : List Nat → DecRes CmdError
  | 0 :: rest =>
      match decError rest with
      | some (e, r) => some (.Data e, r)
      | none => none
  | 1 :: rest =>
      match decTransferError rest with
      | some (e, r) => some (.Transfer e, r)
      | none => none
  | _ => none

theorem decCmdError_enc (e : CmdError) (rest : List Nat) :
    decCmdError (encCmdError e ++ rest) = some (e, rest) := by
  cases e <;> simp [encCmdError, decCmdError, decError_enc, decTransferError_enc]

/-- Encode a NodeSystemCmd. -/
def encNodeSystemCmd : NodeSystemCmd → List Nat
  | .RegisterWallet w => 0 :: encNat w
  | .StorageFull n s => 1 :: encNat n ++ encNat s
  | .ReplicateChunk b => 2 :: encNat b
  | .RepublishChunk b => 3 :: encNat b
  | .ReceiveExistingData w m => 4 :: encListOf (encPair encNat encNat2) w ++ encNat m

/-- Decode a NodeSystemCmd. -/
def decNodeSystemCmd : List Nat → DecRes NodeSystemCmd
  | 0 :: w :: rest => some (.RegisterWallet w, rest)
  | 1 :: n :: s :: rest => some (.StorageFull n s, rest)
  | 2 :: b :: rest => some (.ReplicateChunk b, rest)
  | 3 :: b :: rest => some (.RepublishChunk b, rest)
  | 4 :: rest =>
      match decListOf (decPair decNat decNat2) rest with
      | some (w, r1) =>
          match decNat r1 with
          | some (m, r2) => some (.ReceiveExistingData w m, r2)
          | none => none
      | none => none
  | _ => none

theorem decNodeSystemCmd_enc (c : NodeSystemCmd) (rest : List Nat) :
    decNodeSystemCmd (encNodeSystemCmd c ++ rest) = some (c, rest) := by
  cases c <;> simp [encNodeSystemCmd, decNodeSystemCmd, decNat_enc, encNat, decNat,
    decListOf_enc (encPair encNat encNat2) (decPair decNat decNat2)
      (decPair_enc encNat decNat encNat2 decNat2 decNat_enc decNat2_enc)]

/-- Encode a NodeCmd. -/
def encNodeCmd : NodeCmd → List Nat
  | .Metadata c s o => 0 :: encNat c ++ encNat s ++ encNat o
  | .Chunks c s o => 1 :: encNat c ++ encNat s ++ encNat o
  | .System c => 2 :: encNodeSystemCmd c

/-- Decode a NodeCmd. -/
def decNodeCmd : List Nat → DecRes NodeCmd
  | 0 :: c :: s :: o :: rest => some (.Metadata c s o, rest)
  | 1 :: c :: s :: o :: rest => some (.Chunks c s o, rest)
  | 2 :: rest =>
      match decNodeSystemCmd rest with
      | some (c, r) => some (.System c, r)
      | none => none
  | _ => none

theorem decNodeCmd_enc (c : NodeCmd) (rest : List Nat) :
    decNodeCmd (encNodeCmd c ++ rest) = some (c, rest) := by
  cases c <;> simp [encNodeCmd, decNodeCmd, encNat, decNodeSystemCmd_enc]

/-- Encode a Unit payload (the Ok side of ChunkWriteHandled). -/
def encUnit (_ : Unit) : List Nat := []

/-- Decode a Unit payload. -/
def decUnit (l : List Nat) : DecRes Unit := some ((), l)

theorem decUnit_enc (u : Unit) (rest : List Nat) :
    decUnit (encUnit u ++ rest) = some (u, rest) := rfl

/-- Encode a NodeEvent. -/
def encNodeEvent : NodeEvent → List Nat
  | .ReplicationCompleted c p => 0 :: encNat c ++ encNat p
  | .ChunkWriteHandled r => 1 :: encExcept encCmdError encUnit r

/-- Decode a NodeEvent. -/
def decNodeEvent : List Nat → DecRes NodeEvent
  | 0 :: c :: p :: rest => some (.ReplicationCompleted c p, rest)
  | 1 :: rest =>
      match decExcept decCmdError decUnit rest with
      | some (r, l) => some (.ChunkWriteHandled r, l)
      | none => none
  | _ => none

theorem decNodeEvent_enc (e : NodeEvent) (rest : List Nat) :
    decNodeEvent (encNodeEvent e ++ rest) = some (e, rest) := by
  cases e <;> simp [encNodeEvent, decNodeEvent, encNat,
    decExcept_enc encCmdError decCmdError encUnit decUnit decCmdError_enc decUnit_enc]

/-- Encode a NodeSystemQuery. -/
def encNodeSystemQuery : NodeSystemQuery → List Nat
  | .GetSectionElders => [0]
  | .GetChunk a => 1 :: encNat a
  | .GetNodeWalletKey n => 2 :: encNat n

/-- Decode a NodeSystemQuery. -/
def decNodeSystemQuery : List Nat → DecRes NodeSystemQuery
  | 0 :: rest => some (.GetSectionElders, rest)
  | 1 :: a :: rest => some (.GetChunk a, rest)
  | 2 :: n :: rest => some (.GetNodeWalletKey n, rest)
  | _ => none

theorem decNodeSystemQuery_enc (q : NodeSystemQuery) (rest : List Nat) :
    decNodeSystemQuery (encNodeSystemQuery q ++ rest) = some (q, rest) := by
  cases q <;> rfl

/-- Encode a NodeQuery. -/
def encNodeQuery : NodeQuery → List Nat
  | .Metadata q s o => 0 :: encDataQuery q ++ encNat s ++ encNat o
  | .Chunks q o => 1 :: encBlobRead q ++ encNat o
  | .System q => 2 :: encNodeSystemQuery q

/-- Decode a NodeQuery. -/
def decNodeQuery : List Nat → DecRes NodeQuery
  | 0 :: rest =>
      match decDataQuery rest with
      | some (q, r1) =>
          match decNat r1 with
          | some (s, r2) =>
              match decNat r2 with
              | some (o, r3) => some (.Metadata q s o, r3)
              | none => none
          | none => none
      | none => none
  | 1 :: rest =>
      match decBlobRead rest with
      | some (q, r1) =>
          match decNat r1 with
          | some (o, r2) => some (.Chunks q o, r2)
          | none => none
      | none => none
  | 2 :: rest =>
      match decNodeSystemQuery rest with
      | some (q, r) => some (.System q, r)
      | none => none
  | _ => none

theorem decNodeQuery_enc (q : NodeQuery) (rest : List Nat) :
    decNodeQuery (encNodeQuery q ++ rest) = some (q, rest) := by
  cases q <;> simp [encNodeQuery, decNodeQuery, decDataQuery_enc, decBlobRead_enc,
    decNodeSystemQuery_enc, decNat_enc]

/-- Encode a NodeSystemQueryResponse. -/
def encNodeSystemQueryResponse : NodeSystemQueryResponse → List Nat
  | .GetSectionElders e => 0 :: encNat e
  | .GetChunk b => 1 :: encNat b

/-- Decode a NodeSystemQueryResponse. -/
def decNodeSystemQueryResponse : List Nat → DecRes NodeSystemQueryResponse
  | 0 :: e :: rest => some (.GetSectionElders e, rest)
  | 1 :: b :: rest => some (.GetChunk b, rest)
  | _ => none

theorem decNodeSystemQueryResponse_enc (r : NodeSystemQueryResponse) (rest : List Nat) :
    decNodeSystemQueryResponse (encNodeSystemQueryResponse r ++ rest) = some (r, rest) := by
  cases r <;> rfl

/-- Encode a NodeDataQueryResponse. -/
def encNodeDataQueryResponse : NodeDataQueryResponse → List Nat
  | .GetChunk r => encExcept encError encNat r

/-- Decode a NodeDataQueryResponse. -/
def decNodeDataQueryResponse (l : List Nat) : DecRes NodeDataQueryResponse :=
  match decExcept decError decNat l with
  | some (r, rest) => some (.GetChunk r, rest)
  | none => none

theorem decNodeDataQueryResponse_enc (r : NodeDataQueryResponse) (rest : List Nat) :
    decNodeDataQueryResponse (encNodeDataQueryResponse r ++ rest) = some (r, rest) := by
  cases r
  simp [encNodeDataQueryResponse, decNodeDataQueryResponse,
    decExcept_enc encError decError encNat decNat decError_enc decNat_enc]

/-- Encode a NodeQueryResponse. -/
def encNodeQueryResponse : NodeQueryResponse → List Nat
  | .Data r => 0 :: encNodeDataQueryResponse r
  | .System r => 1 :: encNodeSystemQueryResponse r

/-- Decode a NodeQueryResponse. -/
def decNodeQueryResponse : List Nat → DecRes NodeQueryResponse
  | 0 :: rest =>
      match decNodeDataQueryResponse rest with
      | some (r, l) => some (.Data r, l)
      | none => none
  | 1 :: rest =>
      match decNodeSystemQueryResponse rest with
      | some (r, l) => some (.System r, l)
      | none => none
  | _ => none

theorem decNodeQueryResponse_enc (r : NodeQueryResponse) (rest : List Nat) :
    decNodeQueryResponse (encNodeQueryResponse r ++ rest) = some (r, rest) := by
  cases r <;> simp [encNodeQueryResponse, decNodeQueryResponse,
    decNodeDataQueryResponse_enc, decNodeSystemQueryResponse_enc]

/-- Encode a NodeDataError. -/
def encNodeDataError : NodeDataError → List Nat
  | .ChunkReplication a e => encNat a ++ encError e

/-- Decode a NodeDataError. -/
def decNodeDataError (l : List Nat) : DecRes NodeDataError :=
  match decNat l with
  | some (a, r1) =>
      match decError r1 with
      | some (e, r2) => some (.ChunkReplication a e, r2)
      | none => none
  | none => none

theorem decNodeDataError_enc (e : NodeDataError) (rest : List Nat) :
    decNodeDataError (encNodeDataError e ++ rest) = some (e, rest) := by
  cases e
  simp [encNodeDataError, decNodeDataError, decNat_enc, decError_enc]

/-- Encode a NodeTransferError. -/
def encNodeTransferError : NodeTransferError → List Nat
  | .TransferPropagation e => encError e

/-- Decode a NodeTransferError. -/
def decNodeTransferError (l : List Nat) : DecRes NodeTransferError :=
  match decError l with
  | some (e, rest) => some (.TransferPropagation e, rest)
  | none => none

theorem decNodeTransferError_enc (e : NodeTransferError) (rest : List Nat) :
    decNodeTransferError (encNodeTransferError e ++ rest) = some (e, rest) := by
  cases e
  simp [encNodeTransferError, decNodeTransferError, decError_enc]

/-- Encode a NodeCmdError. -/
def encNodeCmdError : NodeCmdError → List Nat
  | .Data e => 0 :: encNodeDataError e
  | .Transfers e => 1 :: encNodeTransferError e

/-- Decode a NodeCmdError. -/
def decNodeCmdError : List Nat → DecRes NodeCmdError
  | 0 :: rest =>
      match decNodeDataError rest with
      | some (e, r) => some (.Data e, r)
      | none => none
  | 1 :: rest =>
      match decNodeTransferError rest with
      | some (e, r) => some (.Transfers e, r)
      | none => none
  | _ => none

theorem decNodeCmdError_enc (e : NodeCmdError) (rest : List Nat) :
    decNodeCmdError (encNodeCmdError e ++ rest) = some (e, rest) := by
  cases e <;> simp [encNodeCmdError, decNodeCmdError, decNodeDataError_enc,
    decNodeTransferError_enc]

/-- Encode a ProcessMsg: variant discriminant, then the fields in source
order. -/
def encProcessMsg : ProcessMsg → List Nat
  | .Cmd c id => 0 :: encNat c ++ encMsgId id
  | .Query q id => 1 :: encQuery q ++ encMsgId id
  | .Event e id ci => 2 :: encEvent e ++ encMsgId id ++ encMsgId ci
  | .QueryResponse r id ci => 3 :: encQueryResponse r ++ encMsgId id ++ encMsgId ci
  | .CmdError e id ci => 4 :: encCmdError e ++ encMsgId id ++ encMsgId ci
  | .NodeCmd c id => 5 :: encNodeCmd c ++ encMsgId id
  | .NodeCmdResult r id pk => 6 :: encNat r ++ encMsgId id ++ encOpt encNat pk
  | .NodeCmdError e id ci => 7 :: encNodeCmdError e ++ encMsgId id ++ encMsgId ci
  | .NodeEvent e id ci => 8 :: encNodeEvent e ++ encMsgId id ++ encMsgId ci
  | .NodeQuery q id => 9 :: encNodeQuery q ++ encMsgId id
  | .NodeQueryResponse r id ci => 10 :: encNodeQueryResponse r ++ encMsgId id ++ encMsgId ci

/-- Decode a ProcessMsg. -/
def decProcessMsg : List Nat → DecRes ProcessMsg
  | 0 :: rest =>
      match decNat rest with
      | some (c, r1) =>
          match decMsgId r1 with
          | some (id, r2) => some (.Cmd c id, r2)
          | none => none
      | none => none
  | 1 :: rest =>
      match decQuery rest with
      | some (q, r1) =>
          match decMsgId r1 with
          | some (id, r2) => some (.Query q id, r2)
          | none => none
      | none => none
  | 2 :: rest =>
      match decEvent rest with
      | some (e, r1) =>
          match decMsgId r1 with
          | some (id, r2) =>
              match decMsgId r2 with
              | some (ci, r3) => some (.Event e id ci, r3)
              | none => none
          | none => none
      | none => none
  | 3 :: rest =>
      match decQueryResponse rest with
      | some (r, r1) =>
          match decMsgId r1 with
          | some (id, r2) =>
              match decMsgId r2 with
              | some (ci, r3) => some (.QueryResponse r id ci, r3)
              | none => none
          | none => none
      | none => none
  | 4 :: rest =>
      match decCmdError rest with
      | some (e, r1) =>
          match decMsgId r1 with
          | some (id, r2) =>
              match decMsgId r2 with
              | some (ci, r3) => some (.CmdError e id ci, r3)
              | none => none
          | none => none
      | none => none
  | 5 :: rest =>
      match decNodeCmd rest with
      | some (c, r1) =>
          match decMsgId r1 with
          | some (id, r2) => some (.NodeCmd c id, r2)
          | none => none
      | none => none
  | 6 :: rest =>
      match decNat rest with
      | some (r, r1) =>
          match decMsgId r1 with
          | some (id, r2) =>
              match decOpt decNat r2 with
              | some (pk, r3) => some (.NodeCmdResult r id pk, r3)
              | none => none
          | none => none
      | none => none
  | 7 :: rest =>
      match decNodeCmdError rest with
      | some (e, r1) =>
          match decMsgId r1 with
          | some (id, r2) =>
              match decMsgId r2 with
              | some (ci, r3) => some (.NodeCmdError e id ci, r3)
              | none => none
          | none => none
      | none => none
  | 8 :: rest =>
      match decNodeEvent rest with
      | some (e, r1) =>
          match decMsgId r1 with
          | some (id, r2) =>
              match decMsgId r2 with
              | some (ci, r3) => some (.NodeEvent e id ci, r3)
              | none => none
          | none => none
      | none => none
  | 9 :: rest =>
      match decNodeQuery rest with
      | some (q, r1) =>
          match decMsgId r1 with
          | some (id, r2) => some (.NodeQuery q id, r2)
          | none => none
      | none => none
  | 10 :: rest =>
      match decNodeQueryResponse rest with
      | some (r, r1) =>
          match decMsgId r1 with
          | some (id, r2) =>
              match decMsgId r2 with
              | some (ci, r3) => some (.NodeQueryResponse r id ci, r3)
              | none => none
          | none => none
      | none => none
  | _ => none

set_option maxHeartbeats 2000000 in
theorem decProcessMsg_enc (m : ProcessMsg) (rest : List Nat) :
    decProcessMsg (encProcessMsg m ++ rest) = some (m, rest) := by
  cases m <;> simp [encProcessMsg, decProcessMsg, decNat_enc, decMsgId_enc, decQuery_enc,
    decEvent_enc, decQueryResponse_enc, decCmdError_enc, decNodeCmd_enc,
    decNodeCmdError_enc, decNodeEvent_enc, decNodeQuery_enc, decNodeQueryResponse_enc,
    decOpt_enc encNat decNat decNat_enc]

/-- Encode a ProcessingError field by field (source order: reason,
source_message, id). -/
def encProcessingError (e : ProcessingError) : List Nat :=
  encOpt encError e.reason ++ encOpt encProcessMsg e.source_message ++ encMsgId e.id

/-- Decode a ProcessingError. -/
def decProcessingError (l : List Nat) : DecRes ProcessingError :=
  match decOpt decError l with
  | some (reason, r1) =>
      match decOpt decProcessMsg r1 with
      | some (src, r2) =>
          match decMsgId r2 with
          | some (id, r3) => some (⟨reason, src, id⟩, r3)
          | none => none
      | none => none
  | none => none

theorem decProcessingError_enc (e : ProcessingError) (rest : List Nat) :
    decProcessingError (encProcessingError e ++ rest) = some (e, rest) := by
  simp [encProcessingError, decProcessingError, decMsgId_enc,
    decOpt_enc encError decError decError_enc,
    decOpt_enc encProcessMsg decProcessMsg decProcessMsg_enc]

/-- Encode a client Message. -/
def encMessage : Message → List Nat
  | .Process m => 0 :: encProcessMsg m
  | .ProcessingError e => 1 :: encProcessingError e

/-- Decode a client Message. -/
def decMessage : List Nat → DecRes Message
  | 0 :: rest =>
      match decProcessMsg rest with
      | some (m, r) => some (.Process m, r)
      | none => none
  | 1 :: rest =>
      match decProcessingError rest with
      | some (e, r) => some (.ProcessingError e, r)
      | none => none
  | _ => none

theorem decMessage_enc (m : Message) (rest : List Nat) :
    decMessage (encMessage m ++ rest) = some (m, rest) := by
  cases m <;> simp [encMessage, decMessage, decProcessMsg_enc, decProcessingError_enc]

/-- Encode a NodeMessage: variant discriminant, then the fields in source
order, target_section_pk last. -/
def encNodeMessage : NodeMessage → List Nat
  | .NodeCmd c id pk => 0 :: encNodeCmd c ++ encMsgId id ++ encOpt encNat pk
  | .NodeCmdError e id ci o pk =>
      1 :: encNodeCmdError e ++ encMsgId id ++ encMsgId ci ++ encNat o ++ encOpt encNat pk
  | .NodeEvent e id ci pk => 2 :: encNodeEvent e ++ encMsgId id ++ encMsgId ci ++
      encOpt encNat pk
  | .NodeQuery q id pk => 3 :: encNodeQuery q ++ encMsgId id ++ encOpt encNat pk
  | .NodeQueryResponse r id ci o pk =>
      4 :: encNodeQueryResponse r ++ encMsgId id ++ encMsgId ci ++ encNat o ++
        encOpt encNat pk

/-- Decode a NodeMessage. -/
def decNodeMessage : List Nat → DecRes NodeMessage
  | 0 :: rest =>
      match decNodeCmd rest with
      | some (c, r1) =>
          match decMsgId r1 with
          | some (id, r2) =>
              match decOpt decNat r2 with
              | some (pk, r3) => some (.NodeCmd c id pk, r3)
              | none => none
          | none => none
      | none => none
  | 1 :: rest =>
      match decNodeCmdError rest with
      | some (e, r1) =>
          match decMsgId r1 with
          | some (id, r2) =>
              match decMsgId r2 with
              | some (ci, r3) =>
                  match decNat r3 with
                  | some (o, r4) =>
                      match decOpt decNat r4 with
                      | some (pk, r5) => some (.NodeCmdError e id ci o pk, r5)
                      | none => none
                  | none => none
              | none => none
          | none => none
      | none => none
  | 2 :: rest =>
      match decNodeEvent rest with
      | some (e, r1) =>
          match decMsgId r1 with
          | some (id, r2) =>
              match decMsgId r2 with
              | some (ci, r3) =>
                  match decOpt decNat r3 with
                  | some (pk, r4) => some (.NodeEvent e id ci pk, r4)
                  | none => none
              | none => none
          | none => none
      | none => none
  | 3 :: rest =>
      match decNodeQuery rest with
      | some (q, r1) =>
          match decMsgId r1 with
          | some (id, r2) =>
              match decOpt decNat r2 with
              | some (pk, r3) => some (.NodeQuery q id pk, r3)
              | none => none
          | none => none
      | none => none
  | 4 :: rest =>
      match decNodeQueryResponse rest with
      | some (r, r1) =>
          match decMsgId r1 with
          | some (id, r2) =>
              match decMsgId r2 with
              | some (ci, r3) =>
                  match decNat r3 with
                  | some (o, r4) =>
                      match decOpt decNat r4 with
                      | some (pk, r5) => some (.NodeQueryResponse r id ci o pk, r5)
                      | none => none
                  | none => none
              | none => none
          | none => none
      | none => none
  | _ => none

theorem decNodeMessage_enc (m : NodeMessage) (rest : List Nat) :
    decNodeMessage (encNodeMessage m ++ rest) = some (m, rest) := by
  cases m <;> simp [encNodeMessage, decNodeMessage, decNodeCmd_enc, decNodeCmdError_enc,
    decNodeEvent_enc, decNodeQuery_enc, decNodeQueryResponse_enc, decMsgId_enc, decNat_enc,
    decOpt_enc encNat decNat decNat_enc]

/-- Modelled from the spec: infrastructure::Query (infrastructure.rs absent
from src/), an opaque topology query. -/
abbrev InfrastructureQuery := Nat

/-- Modelled from the spec: node::routing::RoutingMessage (routing.rs absent
from src/), an opaque control-plane payload. -/
abbrev RoutingMessage := Nat

/-- MessageType from src/lib.rs: the top-level wire union. The ClientMessage
channel carries the destination and destination-section-key envelope
metadata next to the logical payload (client/mod.rs deserialises it with the
pattern `MessageType::ClientMessage { msg, .. }`). -/
inductive MessageType where
  | Ping
  | InfrastructureQuery (query : InfrastructureQuery)
  | ClientMessage (msg : Message) (dest : XorName) (dest_section_pk : BlsPublicKey)
  | NodeMessage (msg : NodeMessage)
  | RoutingMessage (msg : RoutingMessage)

/-- Encode a MessageType: the channel discriminant, then the envelope
metadata and payload. -/
def encMessageType : MessageType → List Nat
  | .Ping => [0]
  | .InfrastructureQuery q => 1 :: encNat q
  | .ClientMessage m dest pk => 2 :: encNat dest ++ encNat pk ++ encMessage m
  | .NodeMessage m => 3 :: encNodeMessage m
  | .RoutingMessage m => 4 :: encNat m

/-- Decode a MessageType. -/
def decMessageType : List Nat → DecRes MessageType
  | 0 :: rest => some (.Ping, rest)
  | 1 :: q :: rest => some (.InfrastructureQuery q, rest)
  | 2 :: rest =>
      match decNat rest with
      | some (dest, r1) =>
          match decNat r1 with
          | some (pk, r2) =>
              match decMessage r2 with
              | some (m, r3) => some (.ClientMessage m dest pk, r3)
              | none => none
          | none => none
      | none => none
  | 3 :: rest =>
      match decNodeMessage rest with
      | some (m, r) => some (.NodeMessage m, r)
      | none => none
  | 4 :: m :: rest => some (.RoutingMessage m, rest)
  | _ => none

theorem decMessageType_enc (m : MessageType) (rest : List Nat) :
    decMessageType (encMessageType m ++ rest) = some (m, rest) := by
  cases m <;> simp [encMessageType, decMessageType, decNat_enc, decMessage_enc,
    decNodeMessage_enc, encNat, decNat]

/-- Modelled from the spec: WireMsg::serialize of the top-level union
(serialisation.rs absent from src/); also the body of MessageType::serialize
in src/lib.rs, which dispatches every channel to the wire encoder. -/
def MessageType.serialize (m : MessageType) : List Nat :=
  encMessageType m

/-- Modelled from the spec: WireMsg::serialize_client_msg, called by
Message::serialize in src/client/mod.rs with the destination and
destination-section-key envelope metadata. -/
def WireMsg.serialize_client_msg (msg : Message) (dest : XorName)
    (dest_section_pk : BlsPublicKey) : List Nat :=
  MessageType.serialize (.ClientMessage msg dest dest_section_pk)

/-- Modelled from the spec: WireMsg::serialize_node_msg, called by
NodeMessage::serialize in src/node/mod.rs. -/
def WireMsg.serialize_node_msg (msg : NodeMessage) : List Nat :=
  MessageType.serialize (.NodeMessage msg)

/-- Modelled from the spec: WireMsg::deserialize decodes the discriminated
envelope and fails with a parse error when the discriminant or the payload
shape is not recognised (including trailing garbage after the payload). -/
def WireMsg.deserialize (bytes : List Nat) : Except CrateError MessageType :=
  match decMessageType bytes with
  | some (m, []) => .ok m
  | _ => .error (.FailedToParse "bytes as a wire message")

/-- Message::from from src/client/mod.rs: deserialize the wire envelope (the
`?` operator propagates its parse error) and accept exactly the
ClientMessage channel. -/
def Message.from (bytes : List Nat) : Except CrateError Message :=
  match WireMsg.deserialize bytes with
  | .ok (.ClientMessage msg _ _) => .ok msg
  | .ok _ => .error (.FailedToParse "bytes as a client message")
  | .error e => .error e

/-- Message::serialize from src/client/mod.rs. -/
def Message.serialize (m : Message) (dest : XorName) (dest_section_pk : BlsPublicKey) :
    List Nat :=
  WireMsg.serialize_client_msg m dest dest_section_pk

/-- NodeMessage::from from src/node/mod.rs: deserialize the wire envelope and
accept exactly the NodeMessage channel. -/
def NodeMessage.from (bytes : List Nat) : Except CrateError NodeMessage :=
  match WireMsg.deserialize bytes with
  | .ok (.NodeMessage msg) => .ok msg
  | .ok _ => .error (.FailedToParse "bytes as a node message")
  | .error e => .error e

/-- NodeMessage::serialize from src/node/mod.rs. -/
def NodeMessage.serialize (m : NodeMessage) : List Nat :=
  WireMsg.serialize_node_msg m

/-! ## Claims -/

/-- C1: for every constructible client Message value m, every destination
XorName and destination-section BlsPublicKey, deserialising the bytes
produced by Message::serialize(dest, dest_section_pk) via Message::from
yields Ok of the same logical payload; the envelope metadata is consumed by
the transport and not reflected back. -/
theorem claim_C1_round_trip (m : Message) (dest : XorName) (dest_section_pk : BlsPublicKey) :
    Message.from (Message.serialize m dest dest_section_pk) = .ok m := by
  have h := decMessageType_enc (.ClientMessage m dest dest_section_pk) []
  simp only [List.append_nil] at h
  simp [Message.from, Message.serialize, WireMsg.serialize_client_msg,
    WireMsg.deserialize, MessageType.serialize, h]

/-- C2: for every Query variant and every error value, Query::error returns
exactly the QueryResponse variant structurally paired with the query,
wrapping Err(e) and never another variant; likewise
GPMGroupQuery::GetConfig(_).error(e) returns the group-config response
variant wrapping Err(e). -/
theorem claim_C2_error_shape :
    (∀ (q : Query) (e : Error), q.error e = (q.pairedTag).mkErr e) ∧
    (∀ (gq : GPMGroupQuery) (e : Error), gq.error e = QRTag.GetGroupConfig.mkErr e) := by
  constructor
  · intro q e
    cases q with
    | Data dq =>
        cases dq with
        | Blob b => cases b; rfl
        | Map mq => cases mq <;> rfl
        | Sequence s => cases s <;> rfl
        | Register r => cases r <;> rfl
    | GetStoreCost _ _ => rfl
  · intro gq e
    cases gq
    rfl

/-- C3: the typed extraction of a Token from a QueryResponse returns the
payload when the response is GetBalance(Ok(t)), the embedded error as
Response(e) when it is GetBalance(Err(e)), and WrongType for every response
of any other variant (in particular GetSequence). -/
theorem claim_C3_extraction :
    (∀ t : Token, Token.try_from (.GetBalance (.ok t)) = .ok t) ∧
    (∀ e : Error, Token.try_from (.GetBalance (.error e)) = .error (.Response e)) ∧
    (∀ r : QueryResponse, r.tag ≠ .GetBalance → Token.try_from r = .error .WrongType) := by
  refine ⟨fun t => rfl, fun e => rfl, ?_⟩
  intro r h
  cases r <;> first
    | rfl
    | exact absurd rfl h

/-- C3 witness: the extraction equations evaluated at concrete responses,
including the WrongType result on a GetSequence response. -/
theorem claim_C3_extraction_witness :
    Token.try_from (.GetBalance (.ok 5)) = .ok 5 ∧
    Token.try_from (.GetBalance (.error .NoSuchData)) = .error (.Response .NoSuchData) ∧
    Token.try_from (.GetSequence (.ok 7)) = .error .WrongType :=
  ⟨claim_C3_extraction.1 5, claim_C3_extraction.2.1 .NoSuchData,
    claim_C3_extraction.2.2 (.GetSequence (.ok 7)) (by decide)⟩

/-- C4: GroupConfig::new fails with InvalidOperation when the name is
shorter than three bytes or the settings map is empty, and otherwise
succeeds with the id derived deterministically from the name as the
domain-separated hash of "GroupId" and the name bytes (id_from is a pure
function of the name, so repeated calls with the same name agree). -/
theorem claim_C4_group_config_new (name : RString) (owner : EndUser)
    (msgs : BTreeMap Nat MsgSettings) :
    ((name.length < 3 ∨ msgs.is_empty = true) →
      GroupConfig.new name owner msgs = .error .InvalidOperation) ∧
    (name.length ≥ 3 → msgs.is_empty = false →
      GroupConfig.new name owner msgs =
        .ok ⟨XorName.fromContent [groupIdTagBytes, name], name, owner, msgs⟩) := by
  constructor
  · rintro (hlen | hempty)
    · unfold GroupConfig.new GroupConfig.id_from
      by_cases hm : msgs.is_empty
      · simp [hm]
      · simp [hm]
        rw [if_pos hlen]
    · unfold GroupConfig.new
      simp [hempty]
  · intro hlen hempty
    unfold GroupConfig.new GroupConfig.id_from
    simp [hempty]
    rw [if_neg (by omega)]

/-- C4 witness: the validation outcomes at the spec's concrete inputs: a
two-byte name fails, empty settings fail, and a three-byte name with one
setting succeeds with the derived id. -/
theorem claim_C4_group_config_new_witness :
    GroupConfig.new [97, 98] 7 [(1, ⟨1, none, .None, .Either, .Either⟩)] =
      .error .InvalidOperation ∧
    GroupConfig.new [97, 98, 99] 7 [] = .error .InvalidOperation ∧
    GroupConfig.new [97, 98, 99] 7 [(1, ⟨1, none, .None, .Either, .Either⟩)] =
      .ok ⟨XorName.fromContent [groupIdTagBytes, [97, 98, 99]], [97, 98, 99], 7,
        [(1, ⟨1, none, .None, .Either, .Either⟩)]⟩ :=
  ⟨(claim_C4_group_config_new [97, 98] 7 _).1 (by left; decide),
    (claim_C4_group_config_new [97, 98, 99] 7 []).1 (by right; decide),
    (claim_C4_group_config_new [97, 98, 99] 7 _).2 (by decide) (by decide)⟩

/-- C5: bytes produced by serialising any wire channel other than
ClientMessage are rejected by Message::from with the parse error naming the
expected client shape, and bytes of any channel other than NodeMessage are
rejected by NodeMessage::from with the parse error naming the expected node
shape; nothing silently coerces. -/
theorem claim_C5_channel_confusion (w : MessageType) :
    ((∀ m dest pk, w ≠ .ClientMessage m dest pk) →
      Message.from (MessageType.serialize w) =
        .error (.FailedToParse "bytes as a client message")) ∧
    ((∀ m, w ≠ .NodeMessage m) →
      NodeMessage.from (MessageType.serialize w) =
        .error (.FailedToParse "bytes as a node message")) := by
  have h : WireMsg.deserialize (MessageType.serialize w) = .ok w := by
    unfold WireMsg.deserialize MessageType.serialize
    have hd := decMessageType_enc w []
    simp only [List.append_nil] at hd
    simp [hd]
  constructor
  · intro hw
    unfold Message.from
    rw [h]
    cases w with
    | Ping => rfl
    | InfrastructureQuery q => rfl
    | ClientMessage m d p => exact absurd rfl (hw m d p)
    | NodeMessage m => rfl
    | RoutingMessage m => rfl
  · intro hw
    unfold NodeMessage.from
    rw [h]
    cases w with
    | Ping => rfl
    | InfrastructureQuery q => rfl
    | ClientMessage m d p => rfl
    | NodeMessage m => exact absurd rfl (hw m)
    | RoutingMessage m => rfl

/-- C5 witness: a Ping envelope is rejected by both channel decoders with
the respective parse errors. -/
theorem claim_C5_channel_confusion_witness :
    Message.from (MessageType.serialize .Ping) =
      .error (.FailedToParse "bytes as a client message") ∧
    NodeMessage.from (MessageType.serialize .Ping) =
      .error (.FailedToParse "bytes as a node message") :=
  ⟨(claim_C5_channel_confusion .Ping).1 (fun _ _ _ h => MessageType.noConfusion h),
    (claim_C5_channel_confusion .Ping).2 (fun _ h => MessageType.noConfusion h)⟩

/-- C6: dst_address is a pure, deterministic function of the request payload
alone (equal query values give equal addresses, and the functions consult no
external state); GetStoreCost resolves to the data_name supplied in the
request, and GPMGroupQuery::GetConfig resolves to the queried group id. -/
theorem claim_C6_dst_address :
    (∀ q₁ q₂ : Query, q₁ = q₂ → q₁.dst_address = q₂.dst_address) ∧
    (∀ (bytes : Nat) (data_name : XorName),
      (Query.GetStoreCost bytes data_name).dst_address = data_name) ∧
    (∀ g₁ g₂ : GPMGroupQuery, g₁ = g₂ → g₁.dst_address = g₂.dst_address) ∧
    (∀ g : GroupId, (GPMGroupQuery.GetConfig g).dst_address = g) :=
  ⟨fun _ _ h => h ▸ rfl, fun _ _ => rfl, fun _ _ h => h ▸ rfl, fun _ => rfl⟩

/-- C6 witness: the destination equations evaluated at concrete queries. -/
theorem claim_C6_dst_address_witness :
    (Query.GetStoreCost 4 9).dst_address = (Query.GetStoreCost 4 9).dst_address ∧
    (Query.GetStoreCost 4 9).dst_address = 9 ∧
    (GPMGroupQuery.GetConfig 3).dst_address = (GPMGroupQuery.GetConfig 3).dst_address ∧
    (GPMGroupQuery.GetConfig 3).dst_address = 3 :=
  ⟨claim_C6_dst_address.1 _ _ rfl, claim_C6_dst_address.2.1 4 9,
    claim_C6_dst_address.2.2.1 _ _ rfl, claim_C6_dst_address.2.2.2 3⟩

/-- C7: create_processing_error embeds the entire original message, carries
the supplied reason, and takes its own id from the freshly generated
MessageId, independent of the source message (the final conjunct: the
produced id is the same whatever message is embedded, so it is never derived
from, and need not equal, the source's id; correlation is by the embedded
message). -/
theorem claim_C7_processing_error (m : ProcessMsg) (reason : Option Error)
    (freshId : MessageId) :
    (m.create_processing_error reason freshId).source_message = some m ∧
    (m.create_processing_error reason freshId).reason = reason ∧
    (m.create_processing_error reason freshId).id = freshId ∧
    (∀ m₂ : ProcessMsg,
      (m.create_processing_error reason freshId).id =
        (m₂.create_processing_error reason freshId).id) :=
  ⟨rfl, rfl, rfl, fun _ => rfl⟩

/-- C8 counterexample: the claim also cites the NodeMsg hierarchy of
src/node/node_msg.rs, none of whose six variants declares a
target_section_pk field. No projection/update pair on NodeMsg can both
preserve every declared field (NodeMsg.fieldsEq) and report back an
arbitrarily chosen Option PublicKey, because a NodeMsg value is exactly its
declared fields; instantiated at the concrete message
NodeMsg.NodeCmd (System (RegisterWallet 0)) with id 0 and the two keys
`none` and `some 0`. -/
theorem claim_C8_counterexample :
    ¬ ∃ (proj : NodeMsg → Option PublicKey)
        (upd : NodeMsg → Option PublicKey → NodeMsg),
        (∀ m pk, NodeMsg.fieldsEq (upd m pk) m) ∧ (∀ m pk, proj (upd m pk) = pk) := by
  rintro ⟨proj, upd, hpres, hproj⟩
  have h0 : upd (NodeMsg.NodeCmd (.System (.RegisterWallet 0)) ⟨0⟩) none =
      NodeMsg.NodeCmd (.System (.RegisterWallet 0)) ⟨0⟩ :=
    NodeMsg.fieldsEq_eq _ _ (hpres _ none)
  have h1 : upd (NodeMsg.NodeCmd (.System (.RegisterWallet 0)) ⟨0⟩) (some 0) =
      NodeMsg.NodeCmd (.System (.RegisterWallet 0)) ⟨0⟩ :=
    NodeMsg.fieldsEq_eq _ _ (hpres _ (some 0))
  have e0 := hproj (NodeMsg.NodeCmd (.System (.RegisterWallet 0)) ⟨0⟩) none
  have e1 := hproj (NodeMsg.NodeCmd (.System (.RegisterWallet 0)) ⟨0⟩) (some 0)
  rw [h0] at e0
  rw [h1] at e1
  rw [e0] at e1
  exact Option.noConfusion e1

/-- C8 (amended): every variant of NodeMessage (src/node/mod.rs) carries an
optional target_section_pk field: the total projection returns the field of
each of the five variants, and the field can be rewritten in place without
disturbing the message id; the parallel NodeMsg hierarchy of node_msg.rs
carries no such field. -/
theorem claim_C8_node_message_pk :
    (∀ c id pk, (NodeMessage.NodeCmd c id pk).target_section_pk = pk) ∧
    (∀ e id ci o pk, (NodeMessage.NodeCmdError e id ci o pk).target_section_pk = pk) ∧
    (∀ e id ci pk, (NodeMessage.NodeEvent e id ci pk).target_section_pk = pk) ∧
    (∀ q id pk, (NodeMessage.NodeQuery q id pk).target_section_pk = pk) ∧
    (∀ r id ci o pk, (NodeMessage.NodeQueryResponse r id ci o pk).target_section_pk = pk) ∧
    (∀ (m : NodeMessage) (pk : Option PublicKey),
      (m.with_target_section_pk pk).target_section_pk = pk) ∧
    (∀ (m : NodeMessage) (pk : Option PublicKey),
      NodeMessage.id (m.with_target_section_pk pk) = m.id) := by
  refine ⟨fun _ _ _ => rfl, fun _ _ _ _ _ => rfl, fun _ _ _ _ => rfl, fun _ _ _ => rfl,
    fun _ _ _ _ _ => rfl, ?_, ?_⟩
  · intro m pk
    cases m <;> rfl
  · intro m pk
    cases m <;> rfl

/-- C9: evaluating the embedded source matches at the claimed-total variant:
the or-patterns of Message::id (client/mod.rs:114) and ProcessMsg::id
(client/mod.rs:257) list ten of the eleven ProcessMsg variants and omit
NodeCmdResult, so no arm returns its id field — the match is not exhaustive
(Rust rejects such a match at compile time), contradicting the claimed
totality over every ClientMessage value. -/
theorem claim_C9_id_not_total (result : NodeCmdResult) (id : MessageId)
    (pk : Option PublicKey) :
    ProcessMsg.id (.NodeCmdResult result id pk) = none ∧
    Message.id (.Process (.NodeCmdResult result id pk)) = none :=
  ⟨rfl, rfl⟩

/-- C10: for every GroupConfig produced by new, get_settings is exactly
lookup in the settings map passed to the constructor (Some of the stored
value, None off its keys), and the name, owner and id accessors return the
constructor arguments and the derived address; all accessors are pure
functions on the immutable value. -/
theorem claim_C10_accessors (name : RString) (owner : EndUser)
    (msgs : BTreeMap Nat MsgSettings) (cfg : GroupConfig)
    (h : GroupConfig.new name owner msgs = .ok cfg) :
    (∀ t : Nat, cfg.get_settings t = msgs.lookup t) ∧
    cfg.name = name ∧ cfg.owner = owner ∧
    cfg.id = XorName.fromContent [groupIdTagBytes, name] := by
  unfold GroupConfig.new at h
  by_cases hm : msgs.is_empty
  · simp [hm] at h
  · simp [hm] at h
    unfold GroupConfig.id_from at h
    by_cases hl : 3 > name.length
    · simp [hl] at h
    · rw [if_neg hl] at h
      simp only [Except.ok.injEq] at h
      subst h
      exact ⟨fun _ => rfl, rfl, rfl, rfl⟩

/-- C10 witness: the accessor equations on the concretely constructed
config with name "abc", owner 7 and a single setting under key 1. -/
theorem claim_C10_accessors_witness :
    GroupConfig.new [97, 98, 99] 7 [(1, ⟨1, none, .None, .Either, .Either⟩)] =
      .ok ⟨XorName.fromContent [groupIdTagBytes, [97, 98, 99]], [97, 98, 99], 7,
        [(1, ⟨1, none, .None, .Either, .Either⟩)]⟩ ∧
    GroupConfig.get_settings
        ⟨XorName.fromContent [groupIdTagBytes, [97, 98, 99]], [97, 98, 99], 7,
          [(1, ⟨1, none, .None, .Either, .Either⟩)]⟩ 1 =
      some ⟨1, none, .None, .Either, .Either⟩ ∧
    GroupConfig.get_settings
        ⟨XorName.fromContent [groupIdTagBytes, [97, 98, 99]], [97, 98, 99], 7,
          [(1, ⟨1, none, .None, .Either, .Either⟩)]⟩ 2 = none ∧
    GroupConfig.name
        ⟨XorName.fromContent [groupIdTagBytes, [97, 98, 99]], [97, 98, 99], 7,
          [(1, ⟨1, none, .None, .Either, .Either⟩)]⟩ = [97, 98, 99] := by
  have h : GroupConfig.new [97, 98, 99] 7 [(1, ⟨1, none, .None, .Either, .Either⟩)] =
      .ok ⟨XorName.fromContent [groupIdTagBytes, [97, 98, 99]], [97, 98, 99], 7,
        [(1, ⟨1, none, .None, .Either, .Either⟩)]⟩ := rfl
  obtain ⟨h1, h2, h3, h4⟩ := claim_C10_accessors _ _ _ _ h
  exact ⟨h, (h1 1).trans (by decide), (h1 2).trans (by decide), h2⟩

end SnMessaging
